import Mathlib

/-!
Shallow embedding of `docs/tools/generate_site_pages.py`, a static-site
generator that compiles two registries of `Page` values (theory notes and
wiki entries) into HTML documents with inline SVG diagrams, plus the
orchestrator (`main`) that checks a stylesheet precondition, prepares the
output directories, removes legacy artifacts, and writes index and page
files.  Pure Python functions become Lean functions on `String`/`Int`;
the orchestrator's side effects become an explicit effect trace over a
small file-system model.
-/

namespace SitePages

/-- The `Page` dataclass: one document's content specification. -/
structure Page where
  slug : String
  title : String
  kind : String
  aria : String
  svg : String
  caption : String
  sections : List (String × String)
  references : List (String × String)

/-- Decimal rendering of `n / 2` exactly as Python renders the float
`n₀ + w / 2` inside an f-string: the integer part followed by `.0` or `.5`.
Python `/` on ints yields a float, and every float appearing in `svg_chip`
is an exact half-integer, so this captures the printed text exactly. -/
def pyHalfRepr (n : Int) : String :=
  (if n < 0 then "-" else "") ++ toString (n.natAbs / 2)
    ++ (if n.natAbs % 2 = 0 then ".0" else ".5")

/-- Everything `html_page` emits before the interpolated `content`. -/
def htmlShellHead (title pre : String) : String :=
  "<!doctype html>\n<html lang=\"en\">\n  <head>\n    <meta charset=\"utf-8\">\n    <meta name=\"viewport\" content=\"width=device-width, initial-scale=1\">\n    <title>"
    ++ title
    ++ " | VSAVM</title>\n    <link rel=\"preconnect\" href=\"https://fonts.googleapis.com\">\n    <link rel=\"preconnect\" href=\"https://fonts.gstatic.com\" crossorigin>\n    <link href=\"https://fonts.googleapis.com/css2?family=Fraunces:wght@400;600&family=Space+Grotesk:wght@400;500;600&display=swap\" rel=\"stylesheet\">\n    <link rel=\"stylesheet\" href=\""
    ++ pre
    ++ "assets/site.css\">\n  </head>\n  <body>\n    <div class=\"site\">\n      <header class=\"header\">\n        <div class=\"brand\">VSAVM</div>\n        <nav class=\"nav\">\n          <a href=\""
    ++ pre
    ++ "index.html\">Home</a>\n          <a href=\""
    ++ pre
    ++ "specs.html\">Specs</a>\n          <a href=\""
    ++ pre
    ++ "theory/index.html\">Theory</a>\n          <a href=\""
    ++ pre
    ++ "wiki/index.html\">Wiki</a>\n        </nav>\n      </header>\n      <main class=\"main content\">\n        "

/-- Everything `html_page` emits after the interpolated `content`. -/
def htmlShellTail : String :=
  "\n      </main>\n      <footer class=\"footer\">\n        VSAVM is an Axiologic Research experiment within the Achilles project. This static documentation is written in clear academic English for engineers.\n      </footer>\n    </div>\n  </body>\n</html>\n"

/-- `html_page(title, content, prefix)`: the fixed document shell. -/
def html_page (title content pre : String) : String :=
  htmlShellHead title pre ++ content ++ htmlShellTail

/-- `svg_wrap(viewbox, aria, body)`: the SVG container with the two-stop
gradient palette. -/
def svg_wrap (viewbox aria body : String) : String :=
  "<svg viewBox=\"" ++ viewbox ++ "\" role=\"img\" aria-label=\"" ++ aria
    ++ "\">\n  <defs>\n    <linearGradient id=\"sky\" x1=\"0\" y1=\"0\" x2=\"1\" y2=\"1\">\n      <stop offset=\"0\" stop-color=\"#e8f3ff\"/>\n      <stop offset=\"1\" stop-color=\"#d6f5e8\"/>\n    </linearGradient>\n    <linearGradient id=\"deep\" x1=\"0\" y1=\"0\" x2=\"1\" y2=\"1\">\n      <stop offset=\"0\" stop-color=\"#0b6eff\"/>\n      <stop offset=\"1\" stop-color=\"#16b879\"/>\n    </linearGradient>\n  </defs>\n  "
    ++ body ++ "\n</svg>"

/-- `svg_chip(x, y, w, h, text)`: rounded rectangle with centered caption.
Python computes `cx = x + w / 2` and `cy = y + h / 2 + 4` as floats;
`pyHalfRepr (2*x + w)` and `pyHalfRepr (2*y + h + 8)` are their exact
printed forms. -/
def svg_chip (x y w h : Int) (text : String) : String :=
  "<rect x=\"" ++ toString x ++ "\" y=\"" ++ toString y
    ++ "\" rx=\"18\" ry=\"18\" width=\"" ++ toString w ++ "\" height=\"" ++ toString h
    ++ "\" fill=\"url(#sky)\" stroke=\"#7fb3e6\" stroke-width=\"2\"/>\n<text x=\""
    ++ pyHalfRepr (2 * x + w) ++ "\" y=\"" ++ pyHalfRepr (2 * y + h + 8)
    ++ "\" text-anchor=\"middle\" font-size=\"13\" fill=\"#0b1a2b\" font-family=\"Space Grotesk\">"
    ++ text ++ "</text>"

/-- The three vertices of the `svg_arrow` polygon, read off its f-string:
`(x2-10, y2-7)`, `(x2-10, y2+7)`, `(x2+10, y2)`. -/
def arrowPolygonPoints (x2 y2 : Int) : List (Int × Int) :=
  [(x2 - 10, y2 - 7), (x2 - 10, y2 + 7), (x2 + 10, y2)]

/-- Renders a vertex list the way the f-string does: `x,y` pairs joined by
single spaces. -/
def pointsAttr (ps : List (Int × Int)) : String :=
  String.intercalate " " (ps.map (fun p => toString p.1 ++ "," ++ toString p.2))

/-- `svg_arrow(x1, y1, x2, y2, color)`: a line plus the arrowhead polygon. -/
def svg_arrow (x1 y1 x2 y2 : Int) (color : String) : String :=
  "<line x1=\"" ++ toString x1 ++ "\" y1=\"" ++ toString y1
    ++ "\" x2=\"" ++ toString x2 ++ "\" y2=\"" ++ toString y2
    ++ "\" stroke=\"" ++ color
    ++ "\" stroke-width=\"4\" stroke-linecap=\"round\"/>\n<polygon points=\""
    ++ pointsAttr (arrowPolygonPoints x2 y2) ++ "\" fill=\"#16b879\"/>"

/-- `svg_note(x, y, w, h, text)`: unfilled rounded rectangle with
left-aligned text at inset (16, 22). -/
def svg_note (x y w h : Int) (text : String) : String :=
  "<rect x=\"" ++ toString x ++ "\" y=\"" ++ toString y
    ++ "\" rx=\"16\" ry=\"16\" width=\"" ++ toString w ++ "\" height=\"" ++ toString h
    ++ "\" fill=\"none\" stroke=\"#7fb3e6\" stroke-width=\"2\"/>\n<text x=\""
    ++ toString (x + 16) ++ "\" y=\"" ++ toString (y + 22)
    ++ "\" text-anchor=\"start\" font-size=\"12\" fill=\"#2f4a63\" font-family=\"Space Grotesk\">"
    ++ text ++ "</text>"

/-- The legend's enclosing rectangle (`width = 360`, given height). -/
def legendRect (x y h : Int) : String :=
  "<rect x=\"" ++ toString x ++ "\" y=\"" ++ toString y
    ++ "\" width=\"360\" height=\"" ++ toString h
    ++ "\" rx=\"16\" ry=\"16\" fill=\"none\" stroke=\"#7fb3e6\" stroke-width=\"2\"/>"

/-- The legend's fixed `Legend` caption text element. -/
def legendTitleText (x y : Int) : String :=
  "<text x=\"" ++ toString (x + 16) ++ "\" y=\"" ++ toString (y + 22)
    ++ "\" text-anchor=\"start\" font-size=\"12\" fill=\"#2f4a63\" font-family=\"Space Grotesk\">Legend</text>"

/-- One legend line's text element, left-aligned at inset 16 from `x`. -/
def legendLineText (x yy : Int) (line : String) : String :=
  "<text x=\"" ++ toString (x + 16) ++ "\" y=\"" ++ toString yy
    ++ "\" text-anchor=\"start\" font-size=\"12\" fill=\"#2f4a63\" font-family=\"Space Grotesk\">"
    ++ line ++ "</text>"

/-- The loop in `svg_legend`: emit one text element per line, advancing
the running `yy` coordinate by 18 after each line. -/
def legendTexts (x : Int) : Int → List String → List String
  | _, [] => []
  | yy, line :: rest => legendLineText x yy line :: legendTexts x (yy + 18) rest

/-- `svg_legend(x, y, lines)`: sized box (`height = 24 + 18 * count`),
`Legend` caption, then one text element per line starting at `y + 44`. -/
def svg_legend (x y : Int) (lines : List String) : String :=
  String.intercalate "\n"
    (legendRect x y (24 + 18 * (lines.length : Int))
      :: legendTitleText x y
      :: legendTexts x (y + 44) lines)

/-- `h2_sections(sections)`: each `(heading, body)` pair as `<h2>`+`<p>`,
joined by newlines in input order. -/
def h2_sections (sections : List (String × String)) : String :=
  String.intercalate "\n"
    (sections.map (fun s => "<h2>" ++ s.1 ++ "</h2>\n<p>" ++ s.2 ++ "</p>"))

/-- `references_paragraph(references)`: every reference as an inline link,
space-separated, in input order, inside one closing paragraph. -/
def references_paragraph (references : List (String × String)) : String :=
  "<h2>References</h2>\n<p>"
    ++ String.intercalate " "
      (references.map (fun r => "<a href=\"" ++ r.2 ++ "\">" ++ r.1 ++ "</a>"))
    ++ "</p>"

/-- `related_wiki_paragraph(prefix)`: the fixed related-pages paragraph
linking five wiki slugs under the given path prefix. -/
def related_wiki_paragraph (pre : String) : String :=
  "<p>Related wiki pages: <a href=\"" ++ pre ++ "vm.html\">VM</a>, <a href=\"" ++ pre
    ++ "event-stream.html\">event stream</a>, <a href=\"" ++ pre
    ++ "vsa.html\">VSA</a>, <a href=\"" ++ pre
    ++ "bounded-closure.html\">bounded closure</a>, <a href=\"" ++ pre
    ++ "consistency-contract.html\">consistency contract</a>.</p>"

/-- The slugs targeted by `related_wiki_paragraph`, read off its five
`href` attributes in order. -/
def relatedWikiSlugs : List String :=
  ["vm", "event-stream", "vsa", "bounded-closure", "consistency-contract"]

/-- The intro paragraph pair `render_page` selects for theory pages. -/
def introTheory : String :=
  "<p>This page is a theory note. It expands the topic in short chapters and defines terminology without duplicating the formal specification documents.</p><p>The diagram has a transparent background and is intended to be read together with the caption and the sections below.</p>"

/-- The intro paragraph pair `render_page` selects for wiki pages. -/
def introWiki : String :=
  "<p>This wiki entry defines a term used across VSAVM and explains why it matters in the architecture.</p><p>The diagram has a transparent background and highlights the operational meaning of the term inside VSAVM.</p>"

/-- The local `wiki(...)` helper inside `build_wiki_pages`: fixed `kind`
and the fixed four-section layout. -/
def wikiEntry (slug title aria svg caption definition role mechanics further : String)
    (references : List (String × String)) : Page :=
  Page.mk slug title "wiki" aria svg caption
    [("Definition", definition),
     ("Role in VSAVM", role),
     ("Mechanics and implications", mechanics),
     ("Further reading", further)]
    references


def theoryPage_vision : Page :=
  Page.mk
    "vision"
    "System vision"
    "theory"
    "Diagram of interface, executable VM core, and consistency contract"
    (svg_wrap "0 0 900 320" "System vision diagram"
      (String.intercalate "\n"
        [(svg_chip 70 70 240 70 "LLM-like interface"),
         (svg_chip 330 70 240 70 "Executable VM core"),
         (svg_chip 590 70 240 70 "Consistency contract"),
         (svg_arrow 310 105 330 105 "url(#deep)"),
         (svg_arrow 570 105 590 105 "url(#deep)"),
         (svg_chip 240 170 520 70 "Bounded closure gates what may be stated"),
         (svg_arrow 710 140 520 170 "#0b6eff"),
         (svg_legend 70 255
            ["Green arrows: primary runtime flow.",
             "Blue arrow: contract constrains emission.",
             "Boxes are subsystems with explicit roles."])]))
    "The system vision: a familiar interface backed by executable state, with an explicit contract that governs emission."
    [("Overview", "VSAVM aims to keep the ergonomics of an LLM-like interface while changing what an answer means internally. Instead of treating understanding as a latent numeric state, the system constructs and executes programs inside an explicit virtual machine. The user experience can remain conversational, but the internal semantics are grounded in execution and trace."),
     ("Core concepts", "A virtual machine is a state transition engine with explicit memory, instructions, and an execution trace. A consistency contract is a rule that ties output permission to budgeted checks. Bounded closure is the controlled exploration of consequences that turns correctness into a measurable property of search effort rather than a vague promise."),
     ("Runtime story", "Input is normalized into a structured event stream. Candidate interpretations are compiled into programs and executed to build VM state. Next-phrase generation proposes continuations, but acceptance is gated by closure checks that reject candidates introducing contradictions within scope."),
     ("Boundary behavior", "When budget is insufficient, the system must degrade honestly. It can emit conditional claims that explicitly depend on assumptions, or it can declare indeterminacy. In both cases, the system avoids substituting fluency for verification by making the exploration boundary explicit.")]
    [("Virtual machine (Wikipedia)", "https://en.wikipedia.org/wiki/Virtual_machine"),
     ("Symbolic execution (Wikipedia)", "https://en.wikipedia.org/wiki/Symbolic_execution"),
     ("Consistency (Wikipedia)", "https://en.wikipedia.org/wiki/Consistency"),
     ("Non-monotonic logic (SEP)", "https://plato.stanford.edu/entries/logic-nonmonotonic/")]

def theoryPage_unified_input : Page :=
  Page.mk
    "unified-input"
    "Unified input representation"
    "theory"
    "Diagram of event stream and reversible macro units"
    (svg_wrap "0 0 900 340" "Unified input representation diagram"
      (String.intercalate "\n"
        [(svg_chip 70 45 760 60 "Event stream (type + payload + structural context)"),
         (svg_arrow 450 105 450 135 "url(#deep)"),
         (svg_chip 110 135 320 80 "Lexical layer (reversible tokens)"),
         (svg_chip 470 135 320 80 "Phrase layer (reversible macro units)"),
         (svg_arrow 270 215 270 245 "url(#deep)"),
         (svg_arrow 630 215 630 245 "url(#deep)"),
         (svg_chip 110 245 320 65 "Deterministic expansion for scoring"),
         (svg_chip 470 245 320 65 "Stable units for retrieval and schemas"),
         (svg_legend 70 312
            ["Structure carries scope across modalities.",
             "Reversibility prevents semantic drift.",
             "Representation is shared by the VM."])]))
    "A single symbolic substrate supports multimodal inputs while preserving structure, scope, and reversible compression."
    [("Overview", "Multimodality becomes tractable when all inputs are mapped into a single canonical representation. VSAVM uses an event stream where each event is discrete and typed and carries an explicit structural context. This creates a shared substrate so that execution, closure, and auditing do not fragment across modality-specific pipelines."),
     ("Terminology", "An event has a type and a discrete payload, plus a context path such as document → section → paragraph → sentence → span. Structural separators are explicit events that delimit scopes for reasoning. Macro units are compressed patterns discovered by learning, but they must remain reversible into lexical events so evaluation and decoding remain deterministic."),
     ("How it supports reasoning", "Stable structure and scope allow the VM to build local theories and to avoid global inconsistency. The event stream also provides stable indexing hooks for retrieval, schema discovery, and program construction. Reversible compression reduces cost while keeping the ability to reconstruct the exact basis of a claim."),
     ("Implementation considerations", "Representation fails when boundaries are ambiguous or when compression cannot expand deterministically. VSAVM therefore prioritizes deterministic segmentation and deterministic expansion. This makes later stages predictable and keeps the correctness contract enforceable.")]
    [("Event stream processing (Wikipedia)", "https://en.wikipedia.org/wiki/Event_stream_processing"),
     ("Tokenization (Wikipedia)", "https://en.wikipedia.org/wiki/Tokenization_(lexical_analysis)"),
     ("Multimodal learning (Wikipedia)", "https://en.wikipedia.org/wiki/Multimodal_learning")]

def theoryPage_structure_and_scope : Page :=
  Page.mk
    "structure-and-scope"
    "Structural boundaries and scope"
    "theory"
    "Diagram of nested scopes controlling inference"
    (svg_wrap "0 0 900 320" "Scope diagram"
      (String.intercalate "\n"
        ["<rect x=\"90\" y=\"55\" width=\"720\" height=\"210\" rx=\"26\" ry=\"26\" fill=\"none\" stroke=\"#7fb3e6\" stroke-width=\"3\"/>",
         "<text x=\"120\" y=\"85\" text-anchor=\"start\" font-size=\"13\" fill=\"#2f4a63\" font-family=\"Space Grotesk\">Document scope</text>",
         "<rect x=\"150\" y=\"95\" width=\"600\" height=\"160\" rx=\"24\" ry=\"24\" fill=\"none\" stroke=\"#0b6eff\" stroke-width=\"3\"/>",
         "<text x=\"180\" y=\"125\" text-anchor=\"start\" font-size=\"13\" fill=\"#2f4a63\" font-family=\"Space Grotesk\">Section scope</text>",
         "<rect x=\"230\" y=\"140\" width=\"440\" height=\"90\" rx=\"20\" ry=\"20\" fill=\"none\" stroke=\"#16b879\" stroke-width=\"3\"/>",
         "<text x=\"260\" y=\"170\" text-anchor=\"start\" font-size=\"13\" fill=\"#2f4a63\" font-family=\"Space Grotesk\">Local context (quote / procedure / paragraph)</text>",
         (svg_legend 90 275
            ["Scope defines what can interact under closure.",
             "Conflicts are meaningful only in-scope.",
             "Local theories reduce global inconsistency."])]))
    "Scope makes contradiction detection meaningful by restricting which facts may interact during closure."
    [("Overview", "Correctness claims require scope. Real corpora contain incompatible sources, hypothetical statements, and quoted passages. If the system treats all statements as globally active, bounded closure either explodes in contradictions or becomes meaningless because conflicts are ignored."),
     ("Boundaries as signals", "Structural boundaries include headings, paragraphs, lists, quotes, definitions, and procedural steps. In multimodal inputs, boundaries also include temporal segments and scene changes. VSAVM treats these separators as explicit events so the VM can localize inference without guessing."),
     ("Scope-aware correctness", "A contradiction is defined canonically as the same fact identifier appearing with opposing polarity inside the same scope. Structural separators define that scope, and the VM carries scope through execution. This enables local theories that remain coherent even when global reconciliation is not possible under budget."),
     ("Practical outcomes", "Scope enables conditional reasoning across sources. A claim can be robust within a scope while being conditional across scopes. This makes the system useful under real-world inconsistency without abandoning the non-contradiction promise.")]
    [("Scope (computer science) (Wikipedia)", "https://en.wikipedia.org/wiki/Scope_(computer_science)"),
     ("Context (computing) (Wikipedia)", "https://en.wikipedia.org/wiki/Context_(computing)"),
     ("Consistency (Wikipedia)", "https://en.wikipedia.org/wiki/Consistency")]

def theoryPage_training_and_emergence : Page :=
  Page.mk
    "training-and-emergence"
    "Training and emergent compilation"
    "theory"
    "Diagram of prediction-search-consolidation loop"
    (svg_wrap "0 0 900 320" "Training loop diagram"
      (String.intercalate "\n"
        ["<circle cx=\"450\" cy=\"150\" r=\"96\" fill=\"none\" stroke=\"#0b6eff\" stroke-width=\"6\"/>",
         "<path d=\"M520 70 L555 82 L525 108\" fill=\"#16b879\"/>",
         (svg_chip 110 80 250 70 "Next-phrase prediction"),
         (svg_chip 540 80 250 70 "Program search"),
         (svg_chip 325 210 250 70 "Consolidation"),
         (svg_note 110 165 330 48 "Prediction pressure favors compact executable explanations."),
         (svg_note 500 165 330 48 "Search proposes candidate programs; closure rejects unstable ones."),
         (svg_legend 110 270
            ["Two loops: predict and search.",
             "Consolidate repeated winners into macros.",
             "Consistency signals constrain consolidation."])]))
    "Compilation emerges when prediction pressure makes compact executable programs the cheapest explanation for recurring patterns."
    [("Overview", "VSAVM treats compilation as a learned capability. Next-phrase prediction provides a broad surface prior, but repeated patterns create pressure to represent intent as executable programs that compress the data. This creates a path from language modeling to program induction without hardcoded templates."),
     ("What emerges and why", "Repeated question forms and reasoning moves become schemas and macro programs because they reduce description length. VSA accelerates the emergence by clustering paraphrases and providing fast retrieval of nearby patterns. The VM provides the semantics by executing candidates and maintaining explicit state."),
     ("Consolidation", "Consolidation is the point where a candidate program becomes a macro instruction. It improves performance, but it also improves stability because the system can treat the macro as a unit that can be tested, audited, versioned, and federated. Consolidation is therefore an engineering mechanism, not only a learning trick."),
     ("Risks and mitigations", "Compression can consolidate spurious patterns if prediction alone is the criterion. VSAVM mitigates this by using bounded closure as a validator and by using scope to prevent unstable rules from contaminating unrelated contexts. Rules that cause branching blow-ups or frequent contradictions should be demoted or isolated.")]
    [("Minimum description length (Wikipedia)", "https://en.wikipedia.org/wiki/Minimum_description_length"),
     ("The MDL Book (Grünwald)", "https://www.grunwald.nl/mdlbook/"),
     ("Program synthesis (Wikipedia)", "https://en.wikipedia.org/wiki/Program_synthesis")]

def theoryPage_rl_shaping : Page :=
  Page.mk
    "rl-shaping"
    "RL as shaping for stable choices"
    "theory"
    "Diagram of candidates, signals, and selection policy"
    (svg_wrap "0 0 900 320" "RL shaping diagram"
      (String.intercalate "\n"
        [(svg_chip 80 70 250 70 "Candidates"),
         (svg_chip 340 70 250 70 "Signals"),
         (svg_chip 600 70 240 70 "Selection policy"),
         (svg_arrow 330 105 340 105 "url(#deep)"),
         (svg_arrow 590 105 600 105 "url(#deep)"),
         (svg_chip 220 170 520 70 "Penalty when closure reveals in-scope contradictions"),
         (svg_arrow 465 140 465 170 "#0b6eff"),
         (svg_legend 80 255
            ["Actions are coarse: choose a program or mode.",
             "Signals are derived from consistency checks.",
             "RL is a tiebreaker and stability prior."])]))
    "RL provides shaping signals for discrete choices, prioritizing candidates that remain stable under bounded closure."
    [("Overview", "VSAVM uses RL as shaping rather than as a replacement for language training. The system often faces multiple plausible candidate programs or response modes. A learned preference can bias selection toward candidates that have historically remained consistent under closure."),
     ("What is optimized", "The action space is intentionally small: selecting among candidate programs, schemas, or response modes. This avoids token-level RL, which is expensive and difficult to audit. Each action corresponds to a semantic decision that can be logged and evaluated."),
     ("Signals and discipline", "Bounded closure naturally provides negative feedback when contradictions are detected. Additional shaping can penalize branching blow-ups and reward compact programs. The resulting preferences steer search toward stable solutions without overriding the explicit consistency gate."),
     ("Trade-offs", "Shaping can overfit to a narrow verifier if the verifier does not reflect the real failure modes. The safe approach is to keep RL as a stability prior while maintaining the correctness guarantee in explicit closure checks and deterministic boundary behavior.")]
    [("Reinforcement learning (Wikipedia)", "https://en.wikipedia.org/wiki/Reinforcement_learning"),
     ("Sutton & Barto (book)", "http://incompleteideas.net/book/the-book-2nd.html"),
     ("Multi-armed bandit (Wikipedia)", "https://en.wikipedia.org/wiki/Multi-armed_bandit")]

def theoryPage_question_compilation : Page :=
  Page.mk
    "question-compilation"
    "Question compilation pipeline"
    "theory"
    "Diagram of normalize-retrieve-fill-compile with beam evaluation"
    (svg_wrap "0 0 900 340" "Question compilation diagram"
      (String.intercalate "\n"
        [(svg_chip 80 60 180 70 "Normalize"),
         (svg_chip 280 60 180 70 "Retrieve"),
         (svg_chip 480 60 180 70 "Fill slots"),
         (svg_chip 680 60 180 70 "Program"),
         (svg_arrow 260 95 280 95 "url(#deep)"),
         (svg_arrow 460 95 480 95 "url(#deep)"),
         (svg_arrow 660 95 680 95 "url(#deep)"),
         (svg_chip 210 170 480 70 "Beam: evaluate fit and early consistency"),
         (svg_arrow 570 130 450 170 "#0b6eff"),
         (svg_legend 80 260
            ["Retrieval narrows search surface (VSA).",
             "Slot filling stays discrete and auditable.",
             "Beam keeps ambiguity explicit under budget."])]))
    "Questions are compiled into executable programs through explicit stages, with ambiguity managed by beam evaluation and consistency checks."
    [("Overview", "A question is treated as a request to produce an executable query program. The pipeline is explicit to support audit and control: normalization creates a structured span, retrieval proposes candidate schemas, slot filling binds discrete values, and compilation emits a program in the VM instruction set."),
     ("Retrieval and slot filling", "Retrieval uses VSA to propose nearby schemas and macro programs. Slot filling binds entities, roles, and references using discrete matching and coreference heuristics, augmented by associative retrieval. The result is an executable artifact rather than a textual template."),
     ("Managing ambiguity", "Instead of forcing a single interpretation, VSAVM carries multiple candidate programs in a beam. Candidates are evaluated by explanatory fit and by early closure checks that detect contradictions. This makes uncertainty explicit and supports conditional outputs when necessary."),
     ("Engineering implications", "Because compilation is explicit, it is testable. You can measure how often a schema is retrieved, how often slot filling is ambiguous, and how often a candidate fails under closure. These metrics can guide consolidation and improve robustness over time.")]
    [("Program synthesis (Wikipedia)", "https://en.wikipedia.org/wiki/Program_synthesis"),
     ("Beam search (Wikipedia)", "https://en.wikipedia.org/wiki/Beam_search"),
     ("Information retrieval (Wikipedia)", "https://en.wikipedia.org/wiki/Information_retrieval")]

def theoryPage_controlled_generation : Page :=
  Page.mk
    "controlled-generation"
    "Controlled generation with closure gating"
    "theory"
    "Diagram of proposal, simulation, closure check, acceptance"
    (svg_wrap "0 0 900 340" "Controlled generation diagram"
      (String.intercalate "\n"
        [(svg_chip 80 70 260 70 "Propose phrases"),
         (svg_chip 360 70 240 70 "Simulate"),
         (svg_chip 620 70 200 70 "Accept"),
         (svg_arrow 340 105 360 105 "url(#deep)"),
         (svg_arrow 600 105 620 105 "url(#deep)"),
         (svg_chip 210 170 480 70 "Gate: bounded closure rejects contradictions"),
         (svg_arrow 480 140 450 170 "#0b6eff"),
         (svg_note 210 250 580 48 "Increasing budget deepens closure and changes what can be claimed."),
         (svg_legend 80 295
            ["Generation is proposal + verification.",
             "Closure is a gate, not an afterthought.",
             "Budget controls robustness vs cost."])]))
    "Generation is treated as proposal followed by verification: candidates must pass closure-based consistency checks before being emitted."
    [("Overview", "VSAVM does not treat generation as free-form continuation. Candidates are proposed by learned distributions and schema constraints, but they must be verified against the VM state. This prevents the surface generator from introducing unsupported claims that violate correctness."),
     ("Candidate sources", "Candidates can come from a discrete language model over macro units, from the active schema, and from VSA retrieval of similar completions. The LM provides fluency, the schema provides structure, and VSA provides pattern-driven recall. The acceptance gate is what prevents any source from dominating truth."),
     ("Closure gating", "Before accepting a candidate, the system simulates its effect and runs a local bounded closure to detect contradictions. If contradictions are detected, the candidate is rejected in strict mode. If exploration is incomplete, the system can emit a conditional result rather than an unconditional claim."),
     ("Budget as user-controlled effort", "When a user asks the system to think more, the budget increases. This increases the depth or breadth of closure and therefore changes what is safe to claim. The system should surface that budget explicitly because it defines the strength of the response.")]
    [("Beam search (Wikipedia)", "https://en.wikipedia.org/wiki/Beam_search"),
     ("Transitive closure (Wikipedia)", "https://en.wikipedia.org/wiki/Transitive_closure"),
     ("Verification and validation (Wikipedia)", "https://en.wikipedia.org/wiki/Verification_and_validation")]

def theoryPage_decoding : Page :=
  Page.mk
    "decoding"
    "Faithful surface realization"
    "theory"
    "Diagram of VM results mapped to constrained output forms"
    (svg_wrap "0 0 900 320" "Decoding diagram"
      (String.intercalate "\n"
        [(svg_chip 90 70 300 70 "VM result (object + trace)"),
         (svg_chip 410 70 220 70 "Surface plan"),
         (svg_chip 650 70 160 70 "Output"),
         (svg_arrow 390 105 410 105 "url(#deep)"),
         (svg_arrow 630 105 650 105 "url(#deep)"),
         (svg_chip 210 170 520 70 "Constraint: do not add facts not in VM state"),
         (svg_arrow 520 140 520 170 "#0b6eff"),
         (svg_legend 90 255
            ["VM state is the source of truth.",
             "Realization controls wording, not content.",
             "Output can be text or event stream."])]))
    "Decoding is a constrained realization: it can choose phrasing, but it must not invent facts beyond the VM state and trace."
    [("Overview", "Decoding is a common place where systems silently reintroduce hallucinations. VSAVM treats decoding as surface realization of internal objects. If the VM did not derive a fact, the realizer is not allowed to state it as true."),
     ("What is realized", "The VM can produce a verdict, a structured object, a plan, or an execution trace. The realizer converts these internal objects into a requested surface form such as prose, a structured event stream, or a report. The emphasis is on fidelity: every factual sentence corresponds to an internal artifact."),
     ("Why constraints matter", "Without constraints, a fluent realizer can add plausible details that were never derived. Constraints turn the correctness contract into an end-to-end property: not only is the internal reasoning checked, but the emitted text is guaranteed to be a rendering of checked state rather than an additional source of information."),
     ("Audit and user trust", "Faithful realization supports audit. When the user asks why a claim was made, the system can point to the underlying fact identifiers and trace steps. When it cannot justify a claim, it must degrade to conditional or indeterminate outputs rather than inventing.")]
    [("Natural language generation (Wikipedia)", "https://en.wikipedia.org/wiki/Natural_language_generation"),
     ("Explainable AI (Wikipedia)", "https://en.wikipedia.org/wiki/Explainable_artificial_intelligence"),
     ("Verification and validation (Wikipedia)", "https://en.wikipedia.org/wiki/Verification_and_validation")]

def theoryPage_correctness_and_closure : Page :=
  Page.mk
    "correctness-and-closure"
    "Operational correctness via bounded closure"
    "theory"
    "Diagram of canonicalization, closure, and conflict detection"
    (svg_wrap "0 0 900 340" "Correctness diagram"
      (String.intercalate "\n"
        [(svg_chip 80 70 240 70 "Canonicalize"),
         (svg_chip 340 70 240 70 "Close (bounded)"),
         (svg_chip 600 70 240 70 "Detect conflicts"),
         (svg_arrow 320 105 340 105 "url(#deep)"),
         (svg_arrow 580 105 600 105 "url(#deep)"),
         (svg_chip 180 170 540 70 "Conflict = same fact_id with opposite polarity in same scope"),
         (svg_arrow 480 140 480 170 "#0b6eff"),
         (svg_note 180 250 610 48 "Budgets define what was checked and therefore what may be stated."),
         (svg_legend 80 295
            ["Canonical IDs make contradictions comparable.",
             "Scope makes contradictions meaningful.",
             "Budgets define claim strength."])]))
    "Correctness is operational: canonical facts plus bounded closure plus scope-aware conflict detection define what can be safely emitted."
    [("Overview", "Correctness in VSAVM is not a vague aspiration; it is a contract. The system is allowed to emit a conclusion only if bounded closure does not reveal contradictions within the configured budget and scope. This makes the cost of correctness explicit and configurable."),
     ("Canonical facts and negation", "Contradictions cannot be reliably detected at the text level. VSAVM maps assertions into canonical fact identifiers with typed slots and explicit polarity. Different surface forms can map to the same canonical identifier, making paraphrase-invariant conflict checks possible."),
     ("Bounded closure and exploration", "Closure applies rules and macro programs to derive consequences. It is bounded by depth, branching, steps, or time, and therefore it is incomplete by design. The important property is honesty: the system ties claim strength to the budget and can downgrade to conditional results when exploration is insufficient."),
     ("Practical auditing", "A correctness claim is only meaningful if it is auditable. VSAVM logs the closure budget, explored branches, applied rules, and detected conflicts. This allows the system to produce operational explanations that are traces of what was executed rather than post-hoc narratives.")]
    [("Consistency (Wikipedia)", "https://en.wikipedia.org/wiki/Consistency"),
     ("Transitive closure (Wikipedia)", "https://en.wikipedia.org/wiki/Transitive_closure"),
     ("Non-monotonic logic (SEP)", "https://plato.stanford.edu/entries/logic-nonmonotonic/")]

def theoryPage_vm_core : Page :=
  Page.mk
    "vm-core"
    "The VM core and retrieval interaction"
    "theory"
    "Diagram of VM components and a retrieval sidecar"
    (svg_wrap "0 0 900 340" "VM architecture diagram"
      (String.intercalate "\n"
        ["<rect x=\"90\" y=\"55\" width=\"540\" height=\"220\" rx=\"26\" ry=\"26\" fill=\"none\" stroke=\"#0b6eff\" stroke-width=\"3\"/>",
         "<text x=\"120\" y=\"85\" text-anchor=\"start\" font-size=\"13\" fill=\"#2f4a63\" font-family=\"Space Grotesk\">VM core</text>",
         (svg_chip 130 105 210 60 "Fact store"),
         (svg_chip 360 105 210 60 "Rule memory"),
         (svg_chip 130 180 210 60 "Context stack"),
         (svg_chip 360 180 210 60 "Execution log"),
         "<rect x=\"670\" y=\"85\" width=\"160\" height=\"190\" rx=\"26\" ry=\"26\" fill=\"none\" stroke=\"#16b879\" stroke-width=\"3\"/>",
         "<text x=\"690\" y=\"115\" text-anchor=\"start\" font-size=\"13\" fill=\"#2f4a63\" font-family=\"Space Grotesk\">Retrieval</text>",
         (svg_chip 690 130 120 55 "VSA"),
         (svg_chip 690 195 120 55 "Top-K"),
         (svg_arrow 630 170 670 170 "url(#deep)"),
         (svg_legend 90 285
            ["VM is the authority via execution.",
             "Retrieval proposes; VM validates.",
             "Logs enable audit and debugging."])]))
    "A compact VM core remains the authority; retrieval accelerates candidate selection without changing semantics."
    [("Overview", "The VM is the system’s semantic core. It stores facts, rules, contexts, and traces and executes programs to construct state. Retrieval exists to reduce search cost by proposing candidates, but it does not decide what is true."),
     ("Minimalism and typing", "A small, typed instruction set reduces absurd combinations and branching blow-ups. The VM needs primitives for canonicalization, matching, branching, context management, and conflict checks. Typed slots and typed terms reduce combinatorial exploration and improve trace readability."),
     ("How retrieval interacts", "VSA provides similarity-driven shortlists of schemas and macro programs. These shortlists are inputs to search and compilation, not outputs of truth. Every retrieved candidate must be validated by execution and closure to preserve the correctness contract under noise and paraphrase variation."),
     ("Engineering benefits", "The explicit VM core makes it possible to unit test rules, regression test closure behavior, and audit decisions. Retrieval can be swapped or improved without changing semantics, because semantics are enforced by the VM and contract rather than by similarity ranking.")]
    [("Symbolic execution (Wikipedia)", "https://en.wikipedia.org/wiki/Symbolic_execution"),
     ("Vector symbolic architecture (Wikipedia)", "https://en.wikipedia.org/wiki/Vector_symbolic_architecture"),
     ("Execution trace (Wikipedia)", "https://en.wikipedia.org/wiki/Trace_(software)")]

def theoryPage_consistency_contract : Page :=
  Page.mk
    "consistency-contract"
    "Consistency contract and boundary behavior"
    "theory"
    "Diagram of budgets, closure, and response modes"
    (svg_wrap "0 0 900 340" "Contract diagram"
      (String.intercalate "\n"
        [(svg_chip 80 70 240 70 "Budgets"),
         (svg_chip 340 70 240 70 "Closure"),
         (svg_chip 600 70 240 70 "Emission rules"),
         (svg_arrow 320 105 340 105 "url(#deep)"),
         (svg_arrow 580 105 600 105 "url(#deep)"),
         (svg_chip 160 170 580 70 "Modes: strict, conditional, indeterminate"),
         (svg_arrow 470 140 470 170 "#0b6eff"),
         (svg_note 160 250 640 48 "The system reports what was checked, not just what it predicts."),
         (svg_legend 80 295
            ["Budgets define exploration boundaries.",
             "Emission depends on closure outcome.",
             "Boundary behavior is explicit and repeatable."])]))
    "The contract makes boundary behavior explicit by tying emission to budgeted closure and named response modes."
    [("Overview", "The consistency contract defines what the system is allowed to emit and under what conditions. It formalizes budgets, closure behavior, and response modes. Without such a contract, the system cannot make honest claims about correctness."),
     ("Budgets and monotonicity", "Budgets include depth, branching, steps, and optionally time. These parameters define exploration coverage and therefore the strength of a conclusion. Increasing budget should not merely increase confidence; it should reveal more consequences and potentially uncover conflicts, making the system more honest rather than more fluent."),
     ("Response modes", "Strict mode emits only what remains consistent across explored branches. Conditional mode emits conclusions tied to explicit assumptions or branches. Indeterminate mode is returned when the system cannot justify a conclusion under the given budget. These modes are semantic commitments that prevent the system from pretending certainty."),
     ("Auditability", "The contract implies logs and metadata: budget used, branches explored, rules applied, and conflicts detected. This allows operational explanations and makes the system testable. It also provides a practical mechanism to debug where and why reasoning fails.")]
    [("Consistency (Wikipedia)", "https://en.wikipedia.org/wiki/Consistency"),
     ("Verification and validation (Wikipedia)", "https://en.wikipedia.org/wiki/Verification_and_validation"),
     ("Non-monotonic logic (SEP)", "https://plato.stanford.edu/entries/logic-nonmonotonic/")]

def theoryPage_state_space_geometry : Page :=
  Page.mk
    "state-space-geometry"
    "State-space geometry and conceptual regions"
    "theory"
    "Diagram of VM states, transitions, and regions"
    (svg_wrap "0 0 900 340" "State space diagram"
      (String.intercalate "\n"
        ["<ellipse cx=\"300\" cy=\"185\" rx=\"240\" ry=\"125\" fill=\"none\" stroke=\"#7fb3e6\" stroke-width=\"3\"/>",
         "<ellipse cx=\"650\" cy=\"170\" rx=\"230\" ry=\"125\" fill=\"none\" stroke=\"#16b879\" stroke-width=\"3\"/>",
         "<text x=\"300\" y=\"70\" text-anchor=\"middle\" font-size=\"12\" fill=\"#2f4a63\" font-family=\"Space Grotesk\">Region A (constraints)</text>",
         "<text x=\"650\" y=\"60\" text-anchor=\"middle\" font-size=\"12\" fill=\"#2f4a63\" font-family=\"Space Grotesk\">Region B (constraints)</text>",
         "<circle cx=\"240\" cy=\"185\" r=\"12\" fill=\"#0b6eff\"/>",
         "<circle cx=\"360\" cy=\"220\" r=\"12\" fill=\"#0b6eff\"/>",
         "<circle cx=\"610\" cy=\"170\" r=\"12\" fill=\"#16b879\"/>",
         "<circle cx=\"715\" cy=\"205\" r=\"12\" fill=\"#16b879\"/>",
         "<line x1=\"252\" y1=\"185\" x2=\"348\" y2=\"220\" stroke=\"url(#deep)\" stroke-width=\"4\" stroke-linecap=\"round\"/>",
         "<line x1=\"372\" y1=\"220\" x2=\"598\" y2=\"170\" stroke=\"url(#deep)\" stroke-width=\"4\" stroke-linecap=\"round\"/>",
         "<line x1=\"622\" y1=\"170\" x2=\"703\" y2=\"205\" stroke=\"url(#deep)\" stroke-width=\"4\" stroke-linecap=\"round\"/>",
         "<text x=\"470\" y=\"155\" text-anchor=\"middle\" font-size=\"12\" fill=\"#2f4a63\" font-family=\"Space Grotesk\">instructions are transitions</text>",
         (svg_legend 90 270
            ["Nodes are VM states.",
             "Edges are instruction transitions.",
             "Regions are conceptual constraints."])]))
    "The relevant geometry is the VM state graph: concepts appear as regions stabilized by constraints, not as points in an embedding space."
    [("Overview", "A geometric interpretation of VSAVM is best expressed in the VM state space. Each instruction is a state transition, and reasoning is a path through this graph under constraints. This makes thinking more equivalent to exploring more of the reachable neighborhood."),
     ("Concepts as regions", "A concept is not a single vector; it is a region of states that share invariants. For example, a contradiction is a region where opposing polarities for the same canonical fact identifier coexist in scope. A definition is a region where new identifiers and constraints are introduced with structural scope markers."),
     ("Two geometries", "VSA provides an auxiliary geometry of similarity over surface forms that accelerates retrieval. The VM provides the geometry of consequences and conflicts. Separating these prevents the system from equating resemblance with truth while still benefiting from fast candidate selection."),
     ("Budgets as resolution", "Budgets define exploration depth and breadth. Small budgets yield shallow checks; larger budgets reveal deeper consequences and more conflicts. This makes the system’s certainty a function of explored coverage rather than a stylistic tone.")]
    [("Conceptual spaces (Wikipedia)", "https://en.wikipedia.org/wiki/Conceptual_spaces"),
     ("State space (Wikipedia)", "https://en.wikipedia.org/wiki/State_space"),
     ("Graph traversal (Wikipedia)", "https://en.wikipedia.org/wiki/Graph_traversal")]

def theoryPage_federated_modules : Page :=
  Page.mk
    "federated-modules"
    "Federated growth of modules"
    "theory"
    "Diagram of clients aggregating artifacts into a shared library"
    (svg_wrap "0 0 900 340" "Federation diagram"
      (String.intercalate "\n"
        [(svg_chip 90 70 200 60 "Client A"),
         (svg_chip 90 150 200 60 "Client B"),
         (svg_chip 90 230 200 60 "Client C"),
         (svg_chip 360 140 240 80 "Aggregation"),
         (svg_chip 650 120 200 80 "Shared library"),
         (svg_chip 650 215 200 80 "Health checks"),
         (svg_arrow 290 100 360 180 "url(#deep)"),
         (svg_arrow 290 180 360 180 "url(#deep)"),
         (svg_arrow 290 260 360 180 "url(#deep)"),
         (svg_arrow 600 180 650 160 "url(#deep)"),
         (svg_arrow 750 200 750 215 "#0b6eff"),
         (svg_legend 360 285
            ["Share artifacts, not raw data.",
             "Validate rules before promotion.",
             "Keep the consistency contract global."])]))
    "Federation shares discrete artifacts such as counts and prototypes and uses health checks to prevent polluted rule libraries."
    [("Overview", "Federation becomes practical when what is learned is modular. VSAVM learns discrete objects such as macro programs, schemas, and prototypes that can be shared as artifacts rather than as opaque parameter deltas. This supports incremental growth without exposing raw corpora."),
     ("What is shared", "Clients can share filtered discrete statistics, VSA prototypes, and macro-program metadata such as utility and conflict rate. Hypervectors themselves can be deterministic and therefore need not be transmitted. Prototypes and rule candidates can be merged and deduplicated at the artifact level."),
     ("Governance and safety", "A wrong rule can pollute the global library. VSAVM mitigates this by requiring the same consistency contract as an admission gate: candidate rules and macros must pass health checks that detect contradiction explosion or uncontrolled branching. This resembles unit testing for learned rules."),
     ("Why modularity helps engineering", "Artifacts can be versioned, rolled back, and scoped. Domain-specific libraries can be maintained separately. This is easier than interpreting dense gradient updates and enables more transparent governance for research deployments.")]
    [("Federated learning (Wikipedia)", "https://en.wikipedia.org/wiki/Federated_learning"),
     ("Differential privacy (Wikipedia)", "https://en.wikipedia.org/wiki/Differential_privacy"),
     ("Knowledge base (Wikipedia)", "https://en.wikipedia.org/wiki/Knowledge_base")]

def theoryPage_trust_and_transparency : Page :=
  Page.mk
    "trust-and-transparency"
    "Trust and transparency"
    "theory"
    "Diagram of trace, checks, and disclosure"
    (svg_wrap "0 0 900 320" "Trust diagram"
      (String.intercalate "\n"
        [(svg_chip 90 70 240 70 "Execution trace"),
         (svg_chip 350 70 240 70 "Consistency checks"),
         (svg_chip 610 70 200 70 "Disclosure"),
         (svg_arrow 330 105 350 105 "url(#deep)"),
         (svg_arrow 590 105 610 105 "url(#deep)"),
         (svg_chip 210 170 520 70 "User-visible: budgets, branches, conflicts, mode"),
         (svg_arrow 470 140 470 170 "#0b6eff"),
         (svg_legend 90 255
            ["Trust is operational, not rhetorical.",
             "Expose what was explored under budget.",
             "Separate robust from conditional claims."])]))
    "Trust is earned by tying outputs to traces and checks and by disclosing budget and mode rather than projecting confidence."
    [("Overview", "Trustworthy behavior is achieved by changing what the system is allowed to emit. VSAVM does not aim to be cautious by tone; it aims to be constrained by computation. If a claim cannot be justified under closure, it must not be stated as robust."),
     ("Reducing hallucinations", "Hallucinations are often failures of emission discipline. VSAVM prevents this by requiring that factual sentences correspond to canonical facts or explicit derivations. The surface realizer can explain what happened, but it cannot introduce new claims beyond VM state and trace."),
     ("Explainability as audit", "Explanations are operational. The system can report the budget used, the number of explored branches, the rules applied, and any conflicts detected. This avoids post-hoc narratives that sound plausible but are not connected to the actual computation."),
     ("Limits and honest uncertainty", "Bounded closure is incomplete by design. The promise is not absolute truth; it is honesty about what was checked. When budget is insufficient, VSAVM degrades to conditional or indeterminate outputs and can suggest increasing budget if the user wants stronger guarantees.")]
    [("Explainable AI (Wikipedia)", "https://en.wikipedia.org/wiki/Explainable_artificial_intelligence"),
     ("Verification and validation (Wikipedia)", "https://en.wikipedia.org/wiki/Verification_and_validation"),
     ("AI alignment (Wikipedia)", "https://en.wikipedia.org/wiki/AI_alignment")]

def wikiPage_vm : Page :=
  wikiEntry
    "vm"
    "Virtual Machine (VM)"
    "Diagram of VM components: facts, rules, contexts, trace"
    (svg_wrap "0 0 900 320" "VM diagram"
      (String.intercalate "\n"
        ["<rect x=\"90\" y=\"55\" width=\"720\" height=\"205\" rx=\"26\" ry=\"26\" fill=\"none\" stroke=\"#0b6eff\" stroke-width=\"3\"/>",
         "<text x=\"120\" y=\"85\" text-anchor=\"start\" font-size=\"13\" fill=\"#2f4a63\" font-family=\"Space Grotesk\">VM state</text>",
         (svg_chip 130 105 210 60 "Fact store"),
         (svg_chip 360 105 210 60 "Rule library"),
         (svg_chip 590 105 180 60 "Contexts"),
         (svg_chip 130 180 300 60 "Typed bindings"),
         (svg_chip 450 180 320 60 "Execution trace"),
         (svg_legend 90 270
            ["State is explicit and inspectable.",
             "Instructions transform state.",
             "Trace supports audit and debugging."])]))
    "The VM is the executable core that makes reasoning explicit through state and trace."
    "A virtual machine is an abstract execution engine that runs programs over a defined state. In VSAVM, the VM is the concrete core that holds canonical facts, applies rules, and records execution traces."
    "The VM provides the state that conditions generation and enforces the consistency contract by running bounded closure and detecting conflicts. It is the authority: retrieval proposes candidates, but the VM decides acceptability via execution."
    "Because the VM state is discrete, VSAVM can attach stable identifiers to claims and scope. This allows deterministic conflict checks, repeatable boundary behavior, and operational explanations derived from traces instead of from post-hoc narratives."
    "Virtual machines and symbolic execution provide foundational ideas for explicit state transitions and branching exploration. VSAVM adapts these ideas for reasoning under budgets and scope."
    [("Virtual machine (Wikipedia)", "https://en.wikipedia.org/wiki/Virtual_machine"),
     ("Symbolic execution (Wikipedia)", "https://en.wikipedia.org/wiki/Symbolic_execution"),
     ("Trace (software) (Wikipedia)", "https://en.wikipedia.org/wiki/Trace_(software)")]

def wikiPage_vsa : Page :=
  wikiEntry
    "vsa"
    "Vector Symbolic Architecture (VSA)"
    "Diagram of VSA similarity shortlist feeding VM validation"
    (svg_wrap "0 0 900 320" "VSA diagram"
      (String.intercalate "\n"
        [(svg_chip 90 70 240 70 "Hypervectors"),
         (svg_chip 350 70 240 70 "Similarity (top-K)"),
         (svg_chip 610 70 200 70 "Candidates"),
         (svg_arrow 330 105 350 105 "url(#deep)"),
         (svg_arrow 590 105 610 105 "url(#deep)"),
         (svg_chip 220 170 520 70 "Validate by execution + bounded closure"),
         (svg_arrow 710 140 560 170 "#0b6eff"),
         (svg_legend 90 255
            ["Similarity is not truth.",
             "Top-K bounds the search surface.",
             "VM remains the authority."])]))
    "VSA accelerates retrieval; the VM validates candidates under the consistency contract."
    "Vector Symbolic Architecture represents symbols as high-dimensional vectors and supports operations such as binding and bundling. It functions as an associative index for fast retrieval and clustering."
    "VSA reduces combinatorial search by shortlisting schemas and macro programs similar to a given span. It guides what the system explores under budget without deciding truth."
    "VSAVM treats VSA output as proposals. Candidates are executed in the VM and checked under bounded closure. This separation preserves correctness: similarity accelerates search, but execution determines acceptability."
    "Hyperdimensional computing and VSA surveys provide background on why high-dimensional representations support robust associative behavior. In VSAVM, these methods are used as search accelerators rather than as semantic authorities."
    [("Vector symbolic architecture (Wikipedia)", "https://en.wikipedia.org/wiki/Vector_symbolic_architecture"),
     ("Hyperdimensional computing (Wikipedia)", "https://en.wikipedia.org/wiki/Hyperdimensional_computing"),
     ("Nearest neighbor search (Wikipedia)", "https://en.wikipedia.org/wiki/Nearest_neighbor_search")]

def wikiPage_event_stream : Page :=
  wikiEntry
    "event-stream"
    "Event stream"
    "Diagram of typed events, payload, and context"
    (svg_wrap "0 0 900 320" "Event stream diagram"
      (String.intercalate "\n"
        [(svg_chip 90 70 240 70 "Typed events"),
         (svg_chip 350 70 240 70 "Discrete payload"),
         (svg_chip 610 70 240 70 "Context path"),
         (svg_arrow 330 105 350 105 "url(#deep)"),
         (svg_arrow 590 105 610 105 "url(#deep)"),
         (svg_chip 210 170 540 70 "Separators define scope for closure"),
         (svg_arrow 480 140 480 170 "#0b6eff"),
         (svg_legend 90 255
            ["One substrate for all modalities.",
             "Context encodes scope.",
             "Scope enables contradiction checks."])]))
    "The event stream is the canonical, scoped input substrate for VSAVM."
    "An event stream is an ordered sequence of typed, discrete events. In VSAVM, each event includes a payload and a structural context path that preserves scope and boundaries."
    "The event stream unifies text and multimodal inputs so that the VM and bounded closure operate on a single representation. It is the foundation for schema discovery, program compilation, and scope-aware conflict detection."
    "Structural separators are explicit events that delimit where a fact applies. By keeping structure in the representation, the system can maintain local theories and avoid global inconsistency while still enforcing correctness within scope."
    "Event stream processing is a broad topic. VSAVM uses the term in a representational sense: explicit structure and discrete units that support deterministic parsing and auditing."
    [("Event stream processing (Wikipedia)", "https://en.wikipedia.org/wiki/Event_stream_processing"),
     ("Tokenization (Wikipedia)", "https://en.wikipedia.org/wiki/Tokenization_(lexical_analysis)"),
     ("Scope (computer science) (Wikipedia)", "https://en.wikipedia.org/wiki/Scope_(computer_science)")]

def wikiPage_bounded_closure : Page :=
  wikiEntry
    "bounded-closure"
    "Bounded closure"
    "Diagram of closure under budget and conflict checks"
    (svg_wrap "0 0 900 340" "Bounded closure diagram"
      (String.intercalate "\n"
        [(svg_chip 80 70 240 70 "Facts + rules"),
         (svg_chip 340 70 240 70 "Derive consequences"),
         (svg_chip 600 70 240 70 "Check conflicts"),
         (svg_arrow 320 105 340 105 "url(#deep)"),
         (svg_arrow 580 105 600 105 "url(#deep)"),
         (svg_chip 180 170 540 70 "Budget: depth, branching, steps, time"),
         (svg_arrow 480 140 480 170 "#0b6eff"),
         (svg_legend 80 255
            ["Closure is transitive but bounded.",
             "Scope makes conflicts meaningful.",
             "Budget defines claim strength."])]))
    "Bounded closure explores consequences under explicit limits and gates what the system may claim."
    "Bounded closure is a controlled approximation of transitive closure. It derives consequences of rules and executions only up to explicit limits such as depth, branching, step count, or time."
    "Bounded closure is the enforcement mechanism behind VSAVM correctness. It rejects candidates that introduce contradictions within scope and determines whether a conclusion is robust, conditional, or indeterminate under the current budget."
    "Closure requires canonical facts and explicit negation. Conflicts are detected when the same canonical fact identifier appears with opposing polarity in the same scope. Budgets make the exploration boundary explicit and auditable."
    "Bounded closure connects to search, verification, and model checking. VSAVM uses closure as a budgeted gate that turns correctness into an operational property."
    [("Transitive closure (Wikipedia)", "https://en.wikipedia.org/wiki/Transitive_closure"),
     ("Consistency (Wikipedia)", "https://en.wikipedia.org/wiki/Consistency"),
     ("Verification and validation (Wikipedia)", "https://en.wikipedia.org/wiki/Verification_and_validation")]

def wikiPage_beam_search : Page :=
  wikiEntry
    "beam-search"
    "Beam search"
    "Diagram of keeping top-K branches"
    (svg_wrap "0 0 900 320" "Beam search diagram"
      (String.intercalate "\n"
        [(svg_chip 90 80 200 60 "Root"),
         (svg_chip 330 55 240 55 "Branch 1"),
         (svg_chip 330 130 240 55 "Branch 2"),
         (svg_chip 330 205 240 55 "Branch 3"),
         (svg_chip 610 130 240 65 "Keep top-K"),
         (svg_arrow 290 110 330 82 "url(#deep)"),
         (svg_arrow 290 110 330 157 "url(#deep)"),
         (svg_arrow 290 110 330 232 "url(#deep)"),
         (svg_arrow 570 157 610 162 "url(#deep)"),
         (svg_legend 90 265
            ["Beam width is a budget parameter.",
             "Keeps multiple hypotheses alive.",
             "Balances cost and coverage."])]))
    "Beam search maintains multiple candidate branches while keeping computation bounded."
    "Beam search keeps only a fixed number of best candidates at each step, providing a practical compromise between exhaustive search and greedy choice."
    "VSAVM uses beam-like strategies for query compilation and for closure exploration. Beams make ambiguity explicit and allow the system to prune candidates that conflict under closure."
    "Beam width impacts the strength of conclusions. A narrow beam can miss conflicting branches; a wider beam improves coverage but increases cost. VSAVM ties robustness to the budget and can downgrade to conditional outputs when coverage is limited."
    "Beam search is widely used in sequence decoding and heuristic search. In VSAVM, beam scoring incorporates both predictive fit and consistency penalties."
    [("Beam search (Wikipedia)", "https://en.wikipedia.org/wiki/Beam_search"),
     ("Heuristic (Wikipedia)", "https://en.wikipedia.org/wiki/Heuristic"),
     ("Best-first search (Wikipedia)", "https://en.wikipedia.org/wiki/Best-first_search")]

def wikiPage_mdl : Page :=
  wikiEntry
    "mdl"
    "Minimum Description Length (MDL)"
    "Diagram of balancing fit and complexity"
    (svg_wrap "0 0 900 320" "MDL diagram"
      (String.intercalate "\n"
        [(svg_chip 120 90 260 70 "Data fit"),
         (svg_chip 520 90 260 70 "Complexity"),
         "<line x1=\"450\" y1=\"80\" x2=\"450\" y2=\"235\" stroke=\"#0b6eff\" stroke-width=\"4\" stroke-linecap=\"round\"/>",
         "<text x=\"450\" y=\"70\" text-anchor=\"middle\" font-size=\"12\" fill=\"#2f4a63\" font-family=\"Space Grotesk\">balance</text>",
         (svg_chip 270 185 360 70 "Promote compact programs that still explain"),
         (svg_legend 120 265
            ["Bias toward reusable structure.",
             "Penalize brittle special cases.",
             "Supports macro consolidation."])]))
    "MDL favors compact executable structure that still explains data, supporting stable macro programs."
    "MDL is a model selection principle that prefers hypotheses minimizing combined description length of model plus data given model. It formalizes the intuition that good structure compresses."
    "VSAVM uses MDL as pressure for discovering and consolidating compact executable programs. If a reasoning move compresses repeated patterns, it becomes a candidate for macro promotion."
    "MDL acts as a complexity guardrail. Without it, the system may proliferate brittle rules that fit locally but explode branching or create contradictions elsewhere. Combined with closure checks, MDL helps keep the program library stable and reusable."
    "The MDL literature connects compression and inference. VSAVM borrows the principle to prioritize programmatic explanations that are both short and consistent under closure."
    [("Minimum description length (Wikipedia)", "https://en.wikipedia.org/wiki/Minimum_description_length"),
     ("The MDL Book (Grünwald)", "https://www.grunwald.nl/mdlbook/"),
     ("Occam\x27s razor (Wikipedia)", "https://en.wikipedia.org/wiki/Occam%27s_razor")]

def wikiPage_rl : Page :=
  wikiEntry
    "rl"
    "Reinforcement Learning (RL)"
    "Diagram of action, feedback, and preference update"
    (svg_wrap "0 0 900 320" "RL diagram"
      (String.intercalate "\n"
        [(svg_chip 90 70 240 70 "Choose"),
         (svg_chip 350 70 240 70 "Feedback"),
         (svg_chip 610 70 240 70 "Update"),
         (svg_arrow 330 105 350 105 "url(#deep)"),
         (svg_arrow 590 105 610 105 "url(#deep)"),
         (svg_chip 210 170 520 70 "Penalty when closure finds contradictions"),
         (svg_arrow 470 140 470 170 "#0b6eff"),
         (svg_legend 90 255
            ["Used as shaping in VSAVM.",
             "Acts on program choices, not tokens.",
             "Consistency provides key signals."])]))
    "RL supplies shaping signals that bias high-level choices toward stable candidates."
    "Reinforcement learning learns preferences over actions using feedback signals such as rewards and penalties."
    "VSAVM uses RL as shaping when multiple plausible candidates exist. The goal is to select interpretations and response modes that remain stable under bounded closure, not to optimize token-by-token behavior."
    "The action space is coarse: choose a schema, choose a macro program, choose a response mode. Closure-derived contradictions provide negative signals that discourage unstable choices. RL complements, but does not replace, explicit closure gating."
    "RL is a broad area. VSAVM’s practical use is closer to bandit-like shaping than to full on-policy token-level control."
    [("Reinforcement learning (Wikipedia)", "https://en.wikipedia.org/wiki/Reinforcement_learning"),
     ("Sutton & Barto (book)", "http://incompleteideas.net/book/the-book-2nd.html"),
     ("Multi-armed bandit (Wikipedia)", "https://en.wikipedia.org/wiki/Multi-armed_bandit")]

def wikiPage_schema : Page :=
  wikiEntry
    "schema"
    "Schema"
    "Diagram of schema frame with slots and bindings"
    (svg_wrap "0 0 900 320" "Schema diagram"
      (String.intercalate "\n"
        ["<rect x=\"120\" y=\"70\" width=\"660\" height=\"180\" rx=\"26\" ry=\"26\" fill=\"none\" stroke=\"#0b6eff\" stroke-width=\"3\"/>",
         "<text x=\"150\" y=\"100\" text-anchor=\"start\" font-size=\"13\" fill=\"#2f4a63\" font-family=\"Space Grotesk\">Schema frame</text>",
         (svg_chip 160 125 240 55 "Intent"),
         (svg_chip 420 125 320 55 "Typed slots"),
         (svg_chip 160 195 240 55 "Bindings"),
         (svg_chip 420 195 320 55 "Program skeleton"),
         (svg_legend 120 265
            ["Frames structure repeated intents.",
             "Slots are filled discretely.",
             "Skeletons become executable programs."])]))
    "Schemas map paraphrases into structured frames that compile into executable programs."
    "A schema is a structured representation of a recurring intent, often expressed as a frame with slots to be filled."
    "Schemas are the bridge between language and execution. They constrain compilation and generation by defining what roles exist, what types are allowed, and how a surface span maps to program structure."
    "Typed slots reduce branching and improve auditability. The system can log which span filled which slot and which assumptions were required. VSA can help retrieve candidate schemas, but final bindings must be validated by execution and closure checks."
    "Schemas appear in cognitive science and linguistics; VSAVM uses them as an engineering abstraction that supports compilation and verification."
    [("Schema (Wikipedia)", "https://en.wikipedia.org/wiki/Schema_(psychology)"),
     ("Frame semantics (Wikipedia)", "https://en.wikipedia.org/wiki/Frame_semantics"),
     ("Program synthesis (Wikipedia)", "https://en.wikipedia.org/wiki/Program_synthesis")]

def wikiPage_macro_program : Page :=
  wikiEntry
    "macro-program"
    "Macro program"
    "Diagram of consolidating steps into a macro"
    (svg_wrap "0 0 900 320" "Macro program diagram"
      (String.intercalate "\n"
        [(svg_chip 120 80 190 60 "Step 1"),
         (svg_chip 330 80 190 60 "Step 2"),
         (svg_chip 540 80 190 60 "Step 3"),
         (svg_arrow 310 110 330 110 "url(#deep)"),
         (svg_arrow 520 110 540 110 "url(#deep)"),
         (svg_chip 300 185 300 70 "Macro program"),
         "<path d=\"M 215 140 C 260 170, 310 190, 350 205\" fill=\"none\" stroke=\"#0b6eff\" stroke-width=\"4\" stroke-linecap=\"round\"/>",
         "<path d=\"M 425 140 C 430 165, 430 185, 450 205\" fill=\"none\" stroke=\"#0b6eff\" stroke-width=\"4\" stroke-linecap=\"round\"/>",
         "<path d=\"M 635 140 C 590 170, 555 190, 550 205\" fill=\"none\" stroke=\"#0b6eff\" stroke-width=\"4\" stroke-linecap=\"round\"/>",
         (svg_legend 120 265
            ["Macros compress repeated routines.",
             "Promoted after stable success.",
             "Reduce search and cost."])]))
    "Macro programs compress repeated multi-step routines into reusable executable blocks."
    "A macro program is a consolidated instruction sequence treated as a reusable unit."
    "Macro programs reduce the need for repeated program search. They represent stabilized reasoning moves that can be invoked efficiently and audited as single units."
    "Promotion should be constrained by MDL-style compression and by closure-based health checks. A macro that predicts well but causes contradictions or branching blow-ups should be demoted or scoped."
    "Macros and abstraction are common in programming; VSAVM uses macro programs as explicit reusable reasoning primitives rather than implicit latent features."
    [("Abstraction (Wikipedia)", "https://en.wikipedia.org/wiki/Abstraction_(computer_science)"),
     ("Program synthesis (Wikipedia)", "https://en.wikipedia.org/wiki/Program_synthesis"),
     ("Minimum description length (Wikipedia)", "https://en.wikipedia.org/wiki/Minimum_description_length")]

def wikiPage_macro_token : Page :=
  wikiEntry
    "macro-token"
    "Macro token"
    "Diagram of reversible compression from tokens to macro unit"
    (svg_wrap "0 0 900 320" "Macro token diagram"
      (String.intercalate "\n"
        [(svg_chip 90 70 240 70 "Tokens"),
         (svg_chip 350 70 240 70 "Compression"),
         (svg_chip 610 70 240 70 "Macro token"),
         (svg_arrow 330 105 350 105 "url(#deep)"),
         (svg_arrow 590 105 610 105 "url(#deep)"),
         (svg_chip 210 170 520 70 "Invariant: deterministic expansion to tokens"),
         (svg_arrow 470 140 470 170 "#0b6eff"),
         (svg_legend 90 255
            ["Reduces entropy at phrase level.",
             "Must be reversible for audit.",
             "Supports stable scoring and decoding."])]))
    "Macro tokens compress recurring patterns while preserving deterministic expansion for evaluation and decoding."
    "A macro token is a compressed phrase-level unit derived from repeated token sequences."
    "Macro tokens help stabilize next-phrase prediction and reduce search cost. They can also become anchors for schema discovery by turning repeated patterns into stable discrete units."
    "Reversibility is mandatory. If expansion is ambiguous, scoring becomes inconsistent and the system cannot maintain traceability. VSAVM treats deterministic expansion as a hard constraint to preserve correctness."
    "Macro units relate to tokenization and compression. VSAVM’s emphasis is on reversibility and auditability under the consistency contract."
    [("Tokenization (Wikipedia)", "https://en.wikipedia.org/wiki/Tokenization_(lexical_analysis)"),
     ("Data compression (Wikipedia)", "https://en.wikipedia.org/wiki/Data_compression"),
     ("Minimum description length (Wikipedia)", "https://en.wikipedia.org/wiki/Minimum_description_length")]

def wikiPage_fact_store : Page :=
  wikiEntry
    "fact-store"
    "Fact store"
    "Diagram of canonical fact_id, polarity, and scope"
    (svg_wrap "0 0 900 340" "Fact store diagram"
      (String.intercalate "\n"
        [(svg_chip 90 70 240 70 "fact_id"),
         (svg_chip 350 70 240 70 "polarity"),
         (svg_chip 610 70 240 70 "scope"),
         (svg_arrow 330 105 350 105 "url(#deep)"),
         (svg_arrow 590 105 610 105 "url(#deep)"),
         (svg_chip 180 170 540 70 "Conflict if same fact_id has opposing polarity in same scope"),
         (svg_arrow 480 140 480 170 "#0b6eff"),
         (svg_legend 90 255
            ["Canonicalization enables comparison.",
             "Scope prevents global collapse.",
             "Used by closure and audit."])]))
    "The fact store holds canonical claims with explicit polarity and scope to make contradiction checks computable."
    "A fact store is a structured memory of assertions. In VSAVM it stores canonical fact identifiers alongside polarity and scope metadata."
    "The fact store is the substrate for closure and conflict detection. It is where derived facts are accumulated and where contradictions are detected during bounded closure."
    "The key invariants are canonical identifiers, explicit negation via polarity, and explicit scope derived from structural boundaries. These make conflict detection robust to paraphrases and meaningful under localized contexts."
    "Fact stores are related to knowledge bases; VSAVM’s emphasis is on canonical IDs and scope-aware closure rather than on open-world accumulation."
    [("Knowledge base (Wikipedia)", "https://en.wikipedia.org/wiki/Knowledge_base"),
     ("Consistency (Wikipedia)", "https://en.wikipedia.org/wiki/Consistency"),
     ("Context (computing) (Wikipedia)", "https://en.wikipedia.org/wiki/Context_(computing)")]

def wikiPage_fact_id : Page :=
  wikiEntry
    "fact-id"
    "Fact identifier"
    "Diagram of surface forms mapping to canonical ID"
    (svg_wrap "0 0 900 320" "Fact identifier diagram"
      (String.intercalate "\n"
        [(svg_chip 90 85 280 65 "Surface A"),
         (svg_chip 90 170 280 65 "Surface B"),
         (svg_chip 450 125 360 80 "Canonical fact_id"),
         (svg_arrow 370 118 450 165 "url(#deep)"),
         (svg_arrow 370 202 450 165 "url(#deep)"),
         (svg_legend 90 255
            ["Equivalence becomes explicit.",
             "Contradictions become computable.",
             "Supports conditional assumptions."])]))
    "Canonical identifiers turn paraphrase variation into a stable unit for closure and contradiction checks."
    "A fact identifier is the internal canonical key for an assertion."
    "Fact identifiers enable reliable conflict detection: a contradiction is opposing polarity for the same identifier inside scope. They also provide stable handles for assumptions and trace references."
    "Schemas and canonicalization map surface forms into internal structures. VSA can propose mappings by similarity, but the final mapping must be validated by execution and consistency constraints to preserve the contract."
    "Canonicalization and normal forms underpin the engineering practice of making equivalence explicit. VSAVM depends on this to make correctness computable under paraphrase variation."
    [("Identifier (Wikipedia)", "https://en.wikipedia.org/wiki/Identifier"),
     ("Canonicalization (Wikipedia)", "https://en.wikipedia.org/wiki/Canonicalization"),
     ("Normal form (Wikipedia)", "https://en.wikipedia.org/wiki/Normal_form")]

def wikiPage_hypervector : Page :=
  wikiEntry
    "hypervector"
    "Hypervector"
    "Diagram of deterministic seed to hypervector pipeline"
    (svg_wrap "0 0 900 320" "Hypervector diagram"
      (String.intercalate "\n"
        [(svg_chip 110 90 240 70 "Stable seed"),
         (svg_chip 370 90 240 70 "Hash"),
         (svg_chip 630 90 240 70 "Hypervector"),
         (svg_arrow 350 125 370 125 "url(#deep)"),
         (svg_arrow 610 125 630 125 "url(#deep)"),
         (svg_chip 210 190 520 70 "Used for similarity, binding, bundling"),
         (svg_arrow 540 160 500 190 "#0b6eff"),
         (svg_legend 110 265
            ["Deterministic keys support reproducibility.",
             "Operations build structured prototypes.",
             "Similarity accelerates search."])]))
    "Hypervectors are deterministic high-dimensional keys used for associative retrieval and structured operations in VSA."
    "A hypervector is a high-dimensional vector used to represent a symbol in hyperdimensional computing and VSA."
    "In VSAVM, hypervectors serve as stable keys for retrieval and clustering. They accelerate schema discovery and candidate selection without defining truth."
    "Hypervectors are generated deterministically from stable hashes, enabling reproducibility. Binding and bundling operations build structured composites and prototypes. Retrieved candidates are validated by the VM under bounded closure."
    "Hyperdimensional computing provides background on why random-like high-dimensional vectors support robust associative behavior. VSAVM uses these ideas for indexing and search acceleration."
    [("Hyperdimensional computing (Wikipedia)", "https://en.wikipedia.org/wiki/Hyperdimensional_computing"),
     ("Hash function (Wikipedia)", "https://en.wikipedia.org/wiki/Hash_function"),
     ("Vector symbolic architecture (Wikipedia)", "https://en.wikipedia.org/wiki/Vector_symbolic_architecture")]

def wikiPage_binding : Page :=
  wikiEntry
    "binding"
    "Binding"
    "Diagram of role and filler bound into composite"
    (svg_wrap "0 0 900 320" "Binding diagram"
      (String.intercalate "\n"
        [(svg_chip 140 100 260 70 "Role"),
         (svg_chip 500 100 260 70 "Filler"),
         (svg_chip 320 200 260 70 "Bound composite"),
         (svg_arrow 320 135 370 200 "#0b6eff"),
         (svg_arrow 630 135 520 200 "#0b6eff"),
         (svg_legend 140 275
            ["Encodes relational structure.",
             "Used for slot-role representations.",
             "Improves structured retrieval."])]))
    "Binding introduces relational structure into VSA representations, enabling slot-aware retrieval."
    "Binding is a VSA operation that combines two vectors into a structured composite representation."
    "VSAVM can use binding to represent typed slot assignments and relations in schema prototypes and span representations."
    "Binding prevents the collapse of structure into bag-of-words similarity. It helps distinguish which value fills which role, supporting compilation into executable programs with explicit bindings."
    "Different VSA variants implement binding differently, but the intent is consistent: bind roles to fillers to preserve structure in a distributed representation."
    [("Vector symbolic architecture (Wikipedia)", "https://en.wikipedia.org/wiki/Vector_symbolic_architecture"),
     ("Hyperdimensional computing (Wikipedia)", "https://en.wikipedia.org/wiki/Hyperdimensional_computing"),
     ("Holographic reduced representation (Wikipedia)", "https://en.wikipedia.org/wiki/Holographic_reduced_representation")]

def wikiPage_bundling : Page :=
  wikiEntry
    "bundling"
    "Bundling"
    "Diagram of aggregating multiple vectors into a prototype"
    (svg_wrap "0 0 900 320" "Bundling diagram"
      (String.intercalate "\n"
        [(svg_chip 130 90 200 60 "A"),
         (svg_chip 350 90 200 60 "B"),
         (svg_chip 570 90 200 60 "C"),
         (svg_chip 350 200 220 70 "Prototype"),
         "<path d=\"M 230 150 C 285 180, 330 195, 360 215\" fill=\"none\" stroke=\"#0b6eff\" stroke-width=\"4\" stroke-linecap=\"round\"/>",
         "<path d=\"M 450 150 C 440 175, 435 195, 435 215\" fill=\"none\" stroke=\"#0b6eff\" stroke-width=\"4\" stroke-linecap=\"round\"/>",
         "<path d=\"M 670 150 C 610 180, 570 195, 560 215\" fill=\"none\" stroke=\"#0b6eff\" stroke-width=\"4\" stroke-linecap=\"round\"/>",
         (svg_legend 130 275
            ["Aggregates evidence across instances.",
             "Builds paraphrase and schema prototypes.",
             "Supports federated merging."])]))
    "Bundling aggregates multiple vectors into a prototype representation used for clustering and schema prototypes."
    "Bundling is a VSA operation that aggregates multiple vectors into a prototype that captures shared structure."
    "VSAVM uses bundling to form prototypes for schemas and macro programs and to cluster paraphrases under a shared representation."
    "Bundling is compatible with federation: prototypes can be merged across clients by further bundling. Bundled candidates remain proposals; the VM validates conclusions through execution and closure checks."
    "Bundling is one of the simplest VSA operations and is valuable for robust prototypes that tolerate noise and partial overlap."
    [("Vector symbolic architecture (Wikipedia)", "https://en.wikipedia.org/wiki/Vector_symbolic_architecture"),
     ("Hyperdimensional computing (Wikipedia)", "https://en.wikipedia.org/wiki/Hyperdimensional_computing"),
     ("Federated learning (Wikipedia)", "https://en.wikipedia.org/wiki/Federated_learning")]

def wikiPage_canonicalization : Page :=
  wikiEntry
    "canonicalization"
    "Canonicalization"
    "Diagram of surface to canonical mapping"
    (svg_wrap "0 0 900 320" "Canonicalization diagram"
      (String.intercalate "\n"
        [(svg_chip 90 90 280 70 "Surface"),
         (svg_chip 390 90 200 70 "Normalize"),
         (svg_chip 610 90 240 70 "Canonical"),
         (svg_arrow 370 125 390 125 "url(#deep)"),
         (svg_arrow 590 125 610 125 "url(#deep)"),
         (svg_chip 210 190 520 70 "Enables: closure, equality, conflicts"),
         (svg_arrow 520 160 480 190 "#0b6eff"),
         (svg_legend 90 265
            ["Canonical form is the unit of checks.",
             "Paraphrases map to stable IDs.",
             "Required for correctness under closure."])]))
    "Canonicalization aligns diverse surface forms into stable internal representations used by closure and conflict detection."
    "Canonicalization maps multiple representations into a single normalized form so equivalence and comparison are well-defined."
    "VSAVM relies on canonicalization to detect contradictions across paraphrases. Without canonical identifiers, closure cannot reliably detect that two wordings refer to the same claim."
    "Canonicalization is guided by schemas and may be accelerated by VSA suggestions, but it must remain deterministic and validated. Canonicalization produces fact identifiers with explicit polarity and scope so contradictions are computable."
    "Canonicalization is closely related to normal forms. VSAVM uses it as a core correctness mechanism, not a presentation detail."
    [("Canonicalization (Wikipedia)", "https://en.wikipedia.org/wiki/Canonicalization"),
     ("Normal form (Wikipedia)", "https://en.wikipedia.org/wiki/Normal_form"),
     ("Consistency (Wikipedia)", "https://en.wikipedia.org/wiki/Consistency")]

def wikiPage_context_scope : Page :=
  wikiEntry
    "context-scope"
    "Context and scope"
    "Diagram of nested scope boundaries"
    (svg_wrap "0 0 900 320" "Scope diagram"
      (String.intercalate "\n"
        ["<rect x=\"120\" y=\"75\" width=\"660\" height=\"190\" rx=\"26\" ry=\"26\" fill=\"none\" stroke=\"#7fb3e6\" stroke-width=\"3\"/>",
         "<text x=\"150\" y=\"105\" text-anchor=\"start\" font-size=\"13\" fill=\"#2f4a63\" font-family=\"Space Grotesk\">Document</text>",
         "<rect x=\"190\" y=\"120\" width=\"520\" height=\"135\" rx=\"24\" ry=\"24\" fill=\"none\" stroke=\"#0b6eff\" stroke-width=\"3\"/>",
         "<text x=\"220\" y=\"150\" text-anchor=\"start\" font-size=\"13\" fill=\"#2f4a63\" font-family=\"Space Grotesk\">Section</text>",
         "<rect x=\"270\" y=\"160\" width=\"360\" height=\"75\" rx=\"20\" ry=\"20\" fill=\"none\" stroke=\"#16b879\" stroke-width=\"3\"/>",
         "<text x=\"300\" y=\"195\" text-anchor=\"start\" font-size=\"13\" fill=\"#2f4a63\" font-family=\"Space Grotesk\">Local context</text>",
         (svg_legend 120 270
            ["Scope controls interaction under closure.",
             "Supports multiple local theories.",
             "Avoids global contradiction explosion."])]))
    "Scope boundaries define where a claim holds and where contradictions are meaningful."
    "Context and scope define the boundary within which a statement is interpreted and interacts with other statements."
    "VSAVM uses scope derived from structural separators to localize inference and contradiction checks. This prevents incompatible sources from collapsing into a single inconsistent base."
    "Scope is carried through execution as context metadata. Conflict checks require scope: a contradiction is opposing polarity for the same canonical fact identifier within the same scope. Without scope, correctness becomes either impossible or meaningless."
    "Scope is a standard notion in computing; VSAVM extends it to reasoning and verification by treating document structure as semantic boundaries."
    [("Scope (computer science) (Wikipedia)", "https://en.wikipedia.org/wiki/Scope_(computer_science)"),
     ("Context (computing) (Wikipedia)", "https://en.wikipedia.org/wiki/Context_(computing)"),
     ("Consistency (Wikipedia)", "https://en.wikipedia.org/wiki/Consistency")]

def wikiPage_query_compiler : Page :=
  wikiEntry
    "query-compiler"
    "NL to query compiler"
    "Diagram of question to schema to program"
    (svg_wrap "0 0 900 320" "Compiler diagram"
      (String.intercalate "\n"
        [(svg_chip 90 90 240 70 "Question"),
         (svg_chip 350 90 240 70 "Schema"),
         (svg_chip 610 90 240 70 "Program"),
         (svg_arrow 330 125 350 125 "url(#deep)"),
         (svg_arrow 590 125 610 125 "url(#deep)"),
         (svg_chip 210 190 520 70 "Search + validation under closure"),
         (svg_arrow 520 160 480 190 "#0b6eff"),
         (svg_legend 90 265
            ["Compilation is hypothesis generation.",
             "Programs are executable artifacts.",
             "Closure enforces honesty."])]))
    "Questions become executable programs via schemas, with search and closure validation enforcing correctness."
    "An NL to query compiler transforms natural language questions into executable query programs."
    "In VSAVM, compilation is central because it makes questions operational and auditable. It enables answers derived by execution and bounded closure rather than by free-form continuation."
    "The compiler retrieves candidate schemas, fills typed slots, emits a program, and evaluates candidates with early closure checks. Multiple candidates can be kept in a beam to handle ambiguity explicitly and to support conditional results."
    "Program synthesis provides a useful analogy: propose programs and validate them against constraints. VSAVM applies this pattern to query programs guided by retrieval and compression pressure."
    [("Program synthesis (Wikipedia)", "https://en.wikipedia.org/wiki/Program_synthesis"),
     ("Beam search (Wikipedia)", "https://en.wikipedia.org/wiki/Beam_search"),
     ("Information retrieval (Wikipedia)", "https://en.wikipedia.org/wiki/Information_retrieval")]

def wikiPage_multimodal : Page :=
  wikiEntry
    "multimodal"
    "Multimodal"
    "Diagram of modalities converging into event stream and VM"
    (svg_wrap "0 0 900 340" "Multimodal diagram"
      (String.intercalate "\n"
        [(svg_chip 90 70 200 60 "Text"),
         (svg_chip 90 150 200 60 "Audio"),
         (svg_chip 90 230 200 60 "Image/Video"),
         (svg_chip 360 140 260 80 "Event stream"),
         (svg_chip 660 140 180 80 "VM"),
         (svg_arrow 290 100 360 180 "url(#deep)"),
         (svg_arrow 290 180 360 180 "url(#deep)"),
         (svg_arrow 290 260 360 180 "url(#deep)"),
         (svg_arrow 620 180 660 180 "url(#deep)"),
         (svg_legend 360 275
            ["Inputs become discrete events.",
             "Structure carries scope.",
             "One core handles all modalities."])]))
    "Multiple modalities converge into a single event stream so the same closure rules apply."
    "Multimodal processing integrates multiple input or output modalities such as text, audio, and images."
    "VSAVM is multimodal by representation: all modalities become event streams. This allows one VM and one correctness contract to operate uniformly across modalities."
    "Audio becomes transcript events with timing; images and video become symbolic descriptors or discrete tokens. Structural separators define scope even in temporal streams. The VM remains modality-agnostic because it consumes discrete events and canonical facts."
    "Multimodal learning literature is broad. VSAVM’s emphasis is on representation unification and execution-based checking, not on any specific encoder design."
    [("Multimodal learning (Wikipedia)", "https://en.wikipedia.org/wiki/Multimodal_learning"),
     ("Event stream processing (Wikipedia)", "https://en.wikipedia.org/wiki/Event_stream_processing"),
     ("Computer vision (Wikipedia)", "https://en.wikipedia.org/wiki/Computer_vision")]

def wikiPage_symbolic_execution : Page :=
  wikiEntry
    "symbolic-execution"
    "Symbolic execution"
    "Diagram of branching paths and checks"
    (svg_wrap "0 0 900 320" "Symbolic execution diagram"
      (String.intercalate "\n"
        [(svg_chip 90 90 220 60 "Symbols"),
         (svg_chip 340 65 220 55 "Branch A"),
         (svg_chip 340 140 220 55 "Branch B"),
         (svg_chip 340 215 220 55 "Branch C"),
         (svg_chip 610 140 240 65 "Constraints"),
         (svg_arrow 310 120 340 92 "url(#deep)"),
         (svg_arrow 310 120 340 167 "url(#deep)"),
         (svg_arrow 310 120 340 242 "url(#deep)"),
         (svg_arrow 560 167 610 172 "url(#deep)"),
         (svg_legend 90 275
            ["Explore multiple paths explicitly.",
             "Prune with constraints.",
             "Budgets bound exploration."])]))
    "Symbolic execution explores multiple branches explicitly and uses constraints to prune inconsistent paths."
    "Symbolic execution runs programs with symbolic inputs, exploring multiple branches while accumulating constraints."
    "VSAVM uses symbolic execution ideas to manage ambiguity and nondeterminism in interpretation and closure exploration."
    "Branching makes uncertainty explicit. Robust conclusions must survive across explored branches; conditional conclusions are tied to assumptions. Constraints and closure checks prune or downgrade inconsistent branches under budget."
    "Symbolic execution underpins many verification tools. VSAVM adapts the idea to reasoning about language-derived programs under bounded closure."
    [("Symbolic execution (Wikipedia)", "https://en.wikipedia.org/wiki/Symbolic_execution"),
     ("Program analysis (Wikipedia)", "https://en.wikipedia.org/wiki/Program_analysis"),
     ("Constraint satisfaction (Wikipedia)", "https://en.wikipedia.org/wiki/Constraint_satisfaction_problem")]

def wikiPage_federated_learning : Page :=
  wikiEntry
    "federated-learning"
    "Federated learning"
    "Diagram of clients aggregating artifacts with validation"
    (svg_wrap "0 0 900 340" "Federated learning diagram"
      (String.intercalate "\n"
        [(svg_chip 90 70 200 60 "Client A"),
         (svg_chip 90 150 200 60 "Client B"),
         (svg_chip 90 230 200 60 "Client C"),
         (svg_chip 360 140 240 80 "Aggregation"),
         (svg_chip 650 120 200 80 "Shared"),
         (svg_chip 650 215 200 80 "Validation"),
         (svg_arrow 290 100 360 180 "url(#deep)"),
         (svg_arrow 290 180 360 180 "url(#deep)"),
         (svg_arrow 290 260 360 180 "url(#deep)"),
         (svg_arrow 600 180 650 160 "url(#deep)"),
         (svg_arrow 750 200 750 215 "#0b6eff"),
         (svg_legend 360 285
            ["Share artifacts, not raw data.",
             "Validate before promotion.",
             "Supports modular libraries."])]))
    "Federation shares artifacts and applies validation to prevent polluted rule libraries."
    "Federated learning trains across clients without centralizing raw data, using aggregated updates or artifacts."
    "VSAVM can federate discrete statistics, VSA prototypes, and executable modules such as schemas and macro programs. This aligns naturally with modular learning and auditability."
    "The main risk is rule pollution. VSAVM mitigates this by requiring closure-based health checks before promoting new rules into a shared library. Modules can be versioned and rolled back more transparently than dense parameter deltas."
    "Federated learning is often paired with privacy techniques such as differential privacy. VSAVM’s approach emphasizes federating explicit artifacts with governance via consistency checks."
    [("Federated learning (Wikipedia)", "https://en.wikipedia.org/wiki/Federated_learning"),
     ("Differential privacy (Wikipedia)", "https://en.wikipedia.org/wiki/Differential_privacy"),
     ("Privacy (Wikipedia)", "https://en.wikipedia.org/wiki/Privacy")]

def wikiPage_trustworthy_ai : Page :=
  wikiEntry
    "trustworthy-ai"
    "Trustworthy AI"
    "Diagram of trace, checks, and honest output modes"
    (svg_wrap "0 0 900 320" "Trustworthy AI diagram"
      (String.intercalate "\n"
        [(svg_chip 90 70 240 70 "Trace"),
         (svg_chip 350 70 240 70 "Checks"),
         (svg_chip 610 70 240 70 "Output modes"),
         (svg_arrow 330 105 350 105 "url(#deep)"),
         (svg_arrow 590 105 610 105 "url(#deep)"),
         (svg_chip 210 170 520 70 "Robust / conditional / indeterminate"),
         (svg_arrow 470 140 470 170 "#0b6eff"),
         (svg_legend 90 255
            ["Constrain emission, not just tone.",
             "Expose budgets and branch coverage.",
             "Make uncertainty explicit."])]))
    "Trust is built by tying outputs to traces and checks and by using explicit output modes."
    "Trustworthy AI refers to systems that behave predictably and transparently, especially at the boundaries of uncertainty."
    "VSAVM approaches trustworthiness by construction: it constrains emission to what can be derived and checked under bounded closure and exposes traces and budgets on demand."
    "The system’s outputs are classified into robust, conditional, or indeterminate based on closure and scope. This replaces ungrounded confidence with operational coverage. The surface realizer is constrained to avoid introducing facts beyond VM state."
    "Trustworthy AI intersects with explainability, verification, and alignment. VSAVM’s contribution is to provide an executable substrate that makes these concerns operational and auditable."
    [("Explainable AI (Wikipedia)", "https://en.wikipedia.org/wiki/Explainable_artificial_intelligence"),
     ("Verification and validation (Wikipedia)", "https://en.wikipedia.org/wiki/Verification_and_validation"),
     ("AI alignment (Wikipedia)", "https://en.wikipedia.org/wiki/AI_alignment")]

def wikiPage_llm : Page :=
  wikiEntry
    "llm"
    "Large Language Model (LLM)"
    "Diagram of prompt to continuation with VM gating overlay"
    (svg_wrap "0 0 900 320" "LLM diagram"
      (String.intercalate "\n"
        [(svg_chip 90 70 240 70 "Prompt"),
         (svg_chip 350 70 240 70 "LM proposals"),
         (svg_chip 610 70 240 70 "Continuation"),
         (svg_arrow 330 105 350 105 "url(#deep)"),
         (svg_arrow 590 105 610 105 "url(#deep)"),
         (svg_chip 210 170 520 70 "VSAVM adds VM state + closure gate"),
         (svg_arrow 470 140 470 170 "#0b6eff"),
         (svg_legend 90 255
            ["Standard LLM: continuation from text.",
             "VSAVM: continuation conditioned on execution.",
             "Gate prevents unsupported claims."])]))
    "VSAVM keeps LLM-like interaction but conditions continuations on executable state and closure checks."
    "A large language model is typically a neural network trained to predict the next token or segment of text."
    "VSAVM uses LLM-like prediction as a proposal mechanism, but acceptance is constrained by VM state and bounded closure. The interface stays familiar while the semantics change."
    "Fluency proposals are filtered by schema constraints and closure gating. This prevents the generator from emitting facts that are not supported by executable state, turning trust into an operational property of checks and traces."
    "LLMs are a fast-moving field. VSAVM’s design goal is to combine LLM-like interaction with an executable substrate and explicit boundary behavior."
    [("Large language model (Wikipedia)", "https://en.wikipedia.org/wiki/Large_language_model"),
     ("Language model (Wikipedia)", "https://en.wikipedia.org/wiki/Language_model"),
     ("Natural language generation (Wikipedia)", "https://en.wikipedia.org/wiki/Natural_language_generation")]

def wikiPage_consistency_contract : Page :=
  wikiEntry
    "consistency-contract"
    "Consistency contract"
    "Diagram of budget, closure, and emission rules"
    (svg_wrap "0 0 900 340" "Consistency contract diagram"
      (String.intercalate "\n"
        [(svg_chip 80 70 240 70 "Budget"),
         (svg_chip 340 70 240 70 "Closure"),
         (svg_chip 600 70 240 70 "Emission"),
         (svg_arrow 320 105 340 105 "url(#deep)"),
         (svg_arrow 580 105 600 105 "url(#deep)"),
         (svg_chip 180 170 540 70 "Strict / conditional / indeterminate"),
         (svg_arrow 480 140 480 170 "#0b6eff"),
         (svg_legend 80 255
            ["Defines what may be stated.",
             "Budgets make boundaries explicit.",
             "Modes define honest degradation."])]))
    "The contract ties what may be emitted to what was checked under budgeted closure and named modes."
    "A consistency contract defines when a system is allowed to emit a conclusion, based on explicit checks and explicit budgets."
    "In VSAVM, the contract is the semantic rule that turns closure outcomes into output permission. It prevents the system from projecting certainty when exploration is incomplete."
    "The contract specifies budgets, closure behavior, and response modes. It requires logging of budget use, branches, and conflicts so results are auditable. Conditional outputs are tied to explicit assumptions rather than vague language."
    "Consistency and non-monotonic reasoning provide background. VSAVM operationalizes these ideas through executable state and bounded exploration rather than purely through hand-coded logic."
    [("Consistency (Wikipedia)", "https://en.wikipedia.org/wiki/Consistency"),
     ("Non-monotonic logic (SEP)", "https://plato.stanford.edu/entries/logic-nonmonotonic/"),
     ("Verification and validation (Wikipedia)", "https://en.wikipedia.org/wiki/Verification_and_validation")]

def wikiPage_conceptual_spaces : Page :=
  wikiEntry
    "conceptual-spaces"
    "Conceptual spaces"
    "Diagram of regions and transitions"
    (svg_wrap "0 0 900 340" "Conceptual spaces diagram"
      (String.intercalate "\n"
        ["<ellipse cx=\"310\" cy=\"185\" rx=\"250\" ry=\"125\" fill=\"none\" stroke=\"#7fb3e6\" stroke-width=\"3\"/>",
         "<ellipse cx=\"650\" cy=\"170\" rx=\"230\" ry=\"125\" fill=\"none\" stroke=\"#16b879\" stroke-width=\"3\"/>",
         "<circle cx=\"250\" cy=\"185\" r=\"12\" fill=\"#0b6eff\"/>",
         "<circle cx=\"370\" cy=\"220\" r=\"12\" fill=\"#0b6eff\"/>",
         "<circle cx=\"610\" cy=\"170\" r=\"12\" fill=\"#16b879\"/>",
         "<circle cx=\"715\" cy=\"205\" r=\"12\" fill=\"#16b879\"/>",
         "<line x1=\"262\" y1=\"185\" x2=\"358\" y2=\"220\" stroke=\"url(#deep)\" stroke-width=\"4\" stroke-linecap=\"round\"/>",
         "<line x1=\"382\" y1=\"220\" x2=\"598\" y2=\"170\" stroke=\"url(#deep)\" stroke-width=\"4\" stroke-linecap=\"round\"/>",
         "<line x1=\"622\" y1=\"170\" x2=\"703\" y2=\"205\" stroke=\"url(#deep)\" stroke-width=\"4\" stroke-linecap=\"round\"/>",
         (svg_legend 90 270
            ["Regions are concepts as constraints.",
             "Nodes are states/instances.",
             "Edges are transitions or inferences."])]))
    "Concepts as regions: VSAVM maps this intuition to VM state-space regions rather than to embedding points."
    "Conceptual spaces model concepts as regions in a geometric space rather than as discrete symbols."
    "VSAVM uses a two-geometry view: VSA similarity provides candidate retrieval, while VM state-space geometry determines consequences and conflicts. Conceptual spaces offer a useful metaphor for regions and invariants in VM state space."
    "A concept corresponds to a region of states satisfying constraints. Thinking more corresponds to exploring a larger neighborhood of the state graph. Similarity geometry accelerates search, but execution geometry governs correctness."
    "Conceptual spaces connect cognition and geometry. VSAVM uses the idea operationally: regions correspond to stable state configurations under closure."
    [("Conceptual spaces (Wikipedia)", "https://en.wikipedia.org/wiki/Conceptual_spaces"),
     ("State space (Wikipedia)", "https://en.wikipedia.org/wiki/State_space"),
     ("Graph traversal (Wikipedia)", "https://en.wikipedia.org/wiki/Graph_traversal")]

def wikiPage_program_synthesis : Page :=
  wikiEntry
    "program-synthesis"
    "Program synthesis"
    "Diagram of intent to program via search and validation"
    (svg_wrap "0 0 900 340" "Program synthesis diagram"
      (String.intercalate "\n"
        [(svg_chip 90 90 260 70 "Intent / examples"),
         (svg_chip 370 90 220 70 "Search"),
         (svg_chip 610 90 240 70 "Program"),
         (svg_arrow 350 125 370 125 "url(#deep)"),
         (svg_arrow 590 125 610 125 "url(#deep)"),
         (svg_chip 210 190 520 70 "Validate with execution and constraints"),
         (svg_arrow 520 160 480 190 "#0b6eff"),
         (svg_legend 90 265
            ["Search proposes candidate programs.",
             "Validation rejects invalid ones.",
             "Similar pattern used in query compilation."])]))
    "Program synthesis illustrates the propose-and-validate pattern that VSAVM uses for query compilation."
    "Program synthesis automatically constructs programs that satisfy a specification, often via search and validation."
    "VSAVM query compilation resembles synthesis: candidate query programs are proposed using retrieval and schemas and then validated by execution and closure checks."
    "Synthesis without validation becomes guesswork. VSAVM’s validation is bounded closure and conflict detection. This rejects candidates that look plausible by similarity but fail under consequences."
    "Program synthesis is a large field. VSAVM applies the idea to executable queries and macro routines under explicit budgets and auditability requirements."
    [("Program synthesis (Wikipedia)", "https://en.wikipedia.org/wiki/Program_synthesis"),
     ("Search algorithm (Wikipedia)", "https://en.wikipedia.org/wiki/Search_algorithm"),
     ("Verification and validation (Wikipedia)", "https://en.wikipedia.org/wiki/Verification_and_validation")]

/-- The ordered theory registry, from build_theory_pages in the source. -/
def build_theory_pages : List Page :=
  [theoryPage_vision,
   theoryPage_unified_input,
   theoryPage_structure_and_scope,
   theoryPage_training_and_emergence,
   theoryPage_rl_shaping,
   theoryPage_question_compilation,
   theoryPage_controlled_generation,
   theoryPage_decoding,
   theoryPage_correctness_and_closure,
   theoryPage_vm_core,
   theoryPage_consistency_contract,
   theoryPage_state_space_geometry,
   theoryPage_federated_modules,
   theoryPage_trust_and_transparency]

/-- The ordered wiki registry, from build_wiki_pages in the source. -/
def build_wiki_pages : List Page :=
  [wikiPage_vm,
   wikiPage_vsa,
   wikiPage_event_stream,
   wikiPage_bounded_closure,
   wikiPage_beam_search,
   wikiPage_mdl,
   wikiPage_rl,
   wikiPage_schema,
   wikiPage_macro_program,
   wikiPage_macro_token,
   wikiPage_fact_store,
   wikiPage_fact_id,
   wikiPage_hypervector,
   wikiPage_binding,
   wikiPage_bundling,
   wikiPage_canonicalization,
   wikiPage_context_scope,
   wikiPage_query_compiler,
   wikiPage_multimodal,
   wikiPage_symbolic_execution,
   wikiPage_federated_learning,
   wikiPage_trustworthy_ai,
   wikiPage_llm,
   wikiPage_consistency_contract,
   wikiPage_conceptual_spaces,
   wikiPage_program_synthesis]

/-- `render_page(page)`: select the kind-specific intro and related-pages
paragraph, assemble the body block, and wrap it in the shell with the
one-level-up prefix (both kinds live one directory below the site root). -/
def render_page (page : Page) : String :=
  let intro := if page.kind = "theory" then introTheory else introWiki
  let related :=
    if page.kind = "theory" then related_wiki_paragraph "../wiki/"
    else related_wiki_paragraph ""
  let body := String.intercalate "\n"
    ["<h1>" ++ page.title ++ "</h1>",
     intro,
     related,
     h2_sections page.sections,
     "<figure class=\"diagram\">",
     page.svg,
     "<figcaption>" ++ page.caption ++ "</figcaption>",
     "</figure>",
     references_paragraph page.references]
  let pre := if page.kind = "theory" ∨ page.kind = "wiki" then "../" else ""
  html_page page.title body pre

/-- One side effect of the build, in the order `main` performs them:
recursive directory creation, file deletion, or a file write. Paths are
relative to the repository root (the Python code computes the same paths
absolutely from the script location). -/
inductive Effect where
  | mkdirP : String → Effect
  | unlink : String → Effect
  | write : String → String → Effect

/-- The path an effect touches. -/
def Effect.path : Effect → String
  | .mkdirP d => d
  | .unlink f => f
  | .write f _ => f

/-- Whether an effect is a file write. -/
def Effect.isWrite : Effect → Bool
  | .write _ _ => true
  | _ => false

/-- The slice of the file system `main` consults before mutating:
whether `docs/assets/site.css` exists, whether `docs/theory` exists, and
the names of the files currently inside `docs/theory` (what
`THEORY.glob` can see). -/
structure FS where
  cssExists : Bool
  theoryDirExists : Bool
  theoryFiles : List String

/-- Whether a file name matches the glob pattern `ds*.html`: it starts
with `ds` and ends with `.html` (for names of length ≥ 7 these two
conditions are exactly the glob; shorter names cannot satisfy both). -/
def matchesLegacyPattern (name : String) : Bool :=
  List.isPrefixOf "ds".data name.data && List.isSuffixOf ".html".data name.data

/-- `remove_legacy_theory_pages()`: if `docs/theory` exists, delete every
file in it whose name matches `ds*.html`; otherwise do nothing. -/
def remove_legacy_theory_pages (fs : FS) : List Effect :=
  if fs.theoryDirExists then
    (fs.theoryFiles.filter matchesLegacyPattern).map
      (fun n => Effect.unlink ("docs/theory/" ++ n))
  else []

/-- One card of the theory index grid, from the f-string in `main`. -/
def theoryCard (p : Page) : String :=
  "<a class=\"card\" href=\"" ++ p.slug
    ++ ".html\"><div class=\"card-title\">" ++ p.title
    ++ "</div><div class=\"card-note\">Chapters, definitions, mechanisms, and references.</div></a>"

/-- One card of the wiki index grid, from the f-string in `main`. -/
def wikiCard (p : Page) : String :=
  "<a class=\"card\" href=\"" ++ p.slug
    ++ ".html\"><div class=\"card-title\">" ++ p.title
    ++ "</div><div class=\"card-note\">Definition, role in VSAVM, mechanics, references.</div></a>"

/-- The joined theory card grid (`theory_cards` in `main`). -/
def theoryCards : String :=
  String.intercalate "\n" (build_theory_pages.map theoryCard)

/-- The joined wiki card grid (`wiki_cards` in `main`). -/
def wikiCards : String :=
  String.intercalate "\n" (build_wiki_pages.map wikiCard)

/-- The document `main` writes to `docs/theory/index.html`. -/
def theoryIndexHtml : String :=
  html_page "Theory"
    (String.intercalate "\n"
      ["<h1>Theory</h1>",
       "<p>The theory section is written as engineer-friendly notes. Each page has 3–4 short chapters, defined terminology, a transparent SVG diagram, and references.</p>",
       "<p>The goal is to explain mechanisms and trade-offs without duplicating specification text.</p>",
       "<div class=\"link-grid\">" ++ theoryCards ++ "</div>"])
    "../"

/-- The document `main` writes to `docs/wiki/index.html`. -/
def wikiIndexHtml : String :=
  html_page "Wiki"
    (String.intercalate "\n"
      ["<h1>Wiki</h1>",
       "<p>The wiki defines core terms used throughout VSAVM. Each entry includes short chapters and a transparent SVG diagram with an operational interpretation.</p>",
       "<div class=\"link-grid\">" ++ wikiCards ++ "</div>"])
    "../"

/-- `main()` as a transition on the file-system model: if the stylesheet
is missing it aborts with the `SystemExit` message and performs no
effect; otherwise it yields the effect trace in execution order —
directory preparation, legacy cleanup, theory index write, theory page
writes in registry order, wiki index write, wiki page writes in registry
order. -/
def mainEffects (fs : FS) : Except String (List Effect) :=
  if fs.cssExists then
    Except.ok
      ([Effect.mkdirP "docs/theory", Effect.mkdirP "docs/wiki"]
        ++ remove_legacy_theory_pages fs
        ++ [Effect.write "docs/theory/index.html" theoryIndexHtml]
        ++ build_theory_pages.map
            (fun p => Effect.write ("docs/theory/" ++ p.slug ++ ".html") (render_page p))
        ++ [Effect.write "docs/wiki/index.html" wikiIndexHtml]
        ++ build_wiki_pages.map
            (fun p => Effect.write ("docs/wiki/" ++ p.slug ++ ".html") (render_page p)))
  else Except.error "Expected docs/assets/site.css to exist."

/-- The effects a run on `fs` performs: the trace on success, nothing on
the fatal abort. -/
def effectsOf (fs : FS) : List Effect :=
  match mainEffects fs with
  | Except.ok es => es
  | Except.error _ => []

/-! ### Shared helper lemmas -/

/-- The accumulator of `String.intercalate.go` factors out on the left. -/
theorem intercalate_go_append (s : String) :
    ∀ (l : List String) (a b : String),
      String.intercalate.go (a ++ b) s l = a ++ String.intercalate.go b s l
  | [], _, _ => rfl
  | c :: t, a, b => by
      show String.intercalate.go (a ++ b ++ s ++ c) s t
        = a ++ String.intercalate.go (b ++ s ++ c) s t
      rw [String.append_assoc a b s, String.append_assoc a (b ++ s) c]
      exact intercalate_go_append s t a ((b ++ s) ++ c)

/-- Peeling the head off an intercalation of at least two pieces. -/
theorem intercalate_cons_cons (s a b : String) (l : List String) :
    String.intercalate s (a :: b :: l) = a ++ s ++ String.intercalate s (b :: l) := by
  show String.intercalate.go (a ++ s ++ b) s l = a ++ s ++ String.intercalate.go b s l
  exact intercalate_go_append s l (a ++ s) b

/-- Intercalating a single piece is that piece. -/
theorem intercalate_singleton (s a : String) : String.intercalate s [a] = a := rfl

/-- String concatenation is left-cancellative. -/
theorem string_append_left_cancel {a b c : String} (h : a ++ b = a ++ c) : b = c := by
  apply String.ext
  have hd := congrArg String.data h
  simp only [String.data_append] at hd
  exact List.append_cancel_left hd

/-- The legend loop emits one text element per input line. -/
theorem legendTexts_length (x : Int) :
    ∀ (l : List String) (yy : Int), (legendTexts x yy l).length = l.length
  | [], _ => rfl
  | _ :: t, yy => by simp [legendTexts, legendTexts_length x t (yy + 18)]

/-- Closed form of the legend loop: the `i`-th emitted text element sits
`18 * i` units below the loop's starting coordinate. -/
theorem legendTexts_get (x : Int) :
    ∀ (l : List String) (yy : Int) (i : Nat),
      (legendTexts x yy l)[i]? =
        (l[i]?).map (fun line => legendLineText x (yy + 18 * (i : Int)) line)
  | [], _, _ => by simp [legendTexts]
  | a :: t, yy, 0 => by simp [legendTexts]
  | a :: t, yy, i + 1 => by
      have ih := legendTexts_get x t (yy + 18) i
      have harith : yy + 18 + 18 * (i : Int) = yy + 18 * ((i : Nat) + 1 : Nat) := by
        push_cast
        ring
      simp only [legendTexts, List.getElem?_cons_succ, ih, harith]

/-- `render_page` unfolded into the explicit concatenation order of its
body block: title heading, kind-selected intro, kind-selected related
paragraph, sections, figure with diagram and caption, references. -/
theorem render_page_unfold (p : Page) :
    render_page p = html_page p.title
      ("<h1>" ++ p.title ++ "</h1>" ++ "\n"
        ++ (if p.kind = "theory" then introTheory else introWiki) ++ "\n"
        ++ (if p.kind = "theory" then related_wiki_paragraph "../wiki/"
            else related_wiki_paragraph "") ++ "\n"
        ++ h2_sections p.sections ++ "\n"
        ++ "<figure class=\"diagram\">" ++ "\n"
        ++ p.svg ++ "\n"
        ++ "<figcaption>" ++ p.caption ++ "</figcaption>" ++ "\n"
        ++ "</figure>" ++ "\n"
        ++ references_paragraph p.references)
      (if p.kind = "theory" ∨ p.kind = "wiki" then "../" else "") := by
  have hbody : String.intercalate "\n"
      ["<h1>" ++ p.title ++ "</h1>",
       (if p.kind = "theory" then introTheory else introWiki),
       (if p.kind = "theory" then related_wiki_paragraph "../wiki/"
        else related_wiki_paragraph ""),
       h2_sections p.sections,
       "<figure class=\"diagram\">",
       p.svg,
       "<figcaption>" ++ p.caption ++ "</figcaption>",
       "</figure>",
       references_paragraph p.references]
      = "<h1>" ++ p.title ++ "</h1>" ++ "\n"
        ++ (if p.kind = "theory" then introTheory else introWiki) ++ "\n"
        ++ (if p.kind = "theory" then related_wiki_paragraph "../wiki/"
            else related_wiki_paragraph "") ++ "\n"
        ++ h2_sections p.sections ++ "\n"
        ++ "<figure class=\"diagram\">" ++ "\n"
        ++ p.svg ++ "\n"
        ++ "<figcaption>" ++ p.caption ++ "</figcaption>" ++ "\n"
        ++ "</figure>" ++ "\n"
        ++ references_paragraph p.references := by
    rw [intercalate_cons_cons, intercalate_cons_cons, intercalate_cons_cons,
      intercalate_cons_cons, intercalate_cons_cons, intercalate_cons_cons,
      intercalate_cons_cons, intercalate_cons_cons, intercalate_singleton]
    simp only [String.append_assoc]
  simp only [render_page]
  rw [hbody]

/-- On a run whose precondition holds, the effect trace is the ordered
concatenation of the build's phases. -/
theorem effectsOf_eq (fs : FS) (h : fs.cssExists = true) :
    effectsOf fs =
      [Effect.mkdirP "docs/theory", Effect.mkdirP "docs/wiki"]
        ++ remove_legacy_theory_pages fs
        ++ [Effect.write "docs/theory/index.html" theoryIndexHtml]
        ++ build_theory_pages.map
            (fun p => Effect.write ("docs/theory/" ++ p.slug ++ ".html") (render_page p))
        ++ [Effect.write "docs/wiki/index.html" wikiIndexHtml]
        ++ build_wiki_pages.map
            (fun p => Effect.write ("docs/wiki/" ++ p.slug ++ ".html") (render_page p)) := by
  simp [effectsOf, mainEffects, h]

/-- Legacy cleanup performs no writes. -/
theorem legacy_filter_isWrite (fs : FS) :
    (remove_legacy_theory_pages fs).filter Effect.isWrite = [] := by
  unfold remove_legacy_theory_pages
  by_cases hd : fs.theoryDirExists
  · simp only [hd, if_true]
    induction fs.theoryFiles.filter matchesLegacyPattern with
    | nil => rfl
    | cons a t ih => simp [Effect.isWrite, ih]
  · simp [hd]

/-- Filtering a list of page writes for writes keeps it unchanged. -/
theorem filter_isWrite_map_write (g : Page → String) (l : List Page) :
    (l.map (fun p => Effect.write (g p) (render_page p))).filter Effect.isWrite
      = l.map (fun p => Effect.write (g p) (render_page p)) := by
  induction l with
  | nil => rfl
  | cons a t ih => simp [Effect.isWrite, ih]

/-- Every registered theory page's write effect occurs in a successful
run's trace. -/
theorem write_mem_effects_theory (fs : FS) (h : fs.cssExists = true) {p : Page}
    (hp : p ∈ build_theory_pages) :
    Effect.write ("docs/theory/" ++ p.slug ++ ".html") (render_page p) ∈ effectsOf fs := by
  rw [effectsOf_eq fs h]
  simp only [List.mem_append]
  exact Or.inl (Or.inl (Or.inr (List.mem_map_of_mem _ hp)))

/-- Every registered wiki page's write effect occurs in a successful
run's trace. -/
theorem write_mem_effects_wiki (fs : FS) (h : fs.cssExists = true) {p : Page}
    (hp : p ∈ build_wiki_pages) :
    Effect.write ("docs/wiki/" ++ p.slug ++ ".html") (render_page p) ∈ effectsOf fs := by
  rw [effectsOf_eq fs h]
  simp only [List.mem_append]
  exact Or.inr (List.mem_map_of_mem _ hp)

/-! ### Claims -/

/-- C1: if the stylesheet is absent the run aborts with the fatal error
and performs no effect — no directory creation, no deletion, no write;
conversely, the mutating trace is produced only when the existence check
succeeds. -/
theorem c1_stylesheet_gate (fs : FS) :
    (fs.cssExists = false →
      mainEffects fs = Except.error "Expected docs/assets/site.css to exist."
        ∧ effectsOf fs = [])
    ∧ (fs.cssExists = true → ∃ es, mainEffects fs = Except.ok es) := by
  constructor
  · intro h
    constructor
    · simp [mainEffects, h]
    · simp [effectsOf, mainEffects, h]
  · intro h
    exact ⟨effectsOf fs, by simp [effectsOf, mainEffects, h]⟩

/-- Witness for C1 at two concrete file systems, one missing the
stylesheet and one having it. -/
theorem c1_stylesheet_gate_witness :
    (mainEffects (FS.mk false true ["ds-report.html"])
        = Except.error "Expected docs/assets/site.css to exist."
      ∧ effectsOf (FS.mk false true ["ds-report.html"]) = [])
    ∧ (∃ es, mainEffects (FS.mk true true []) = Except.ok es) :=
  ⟨(c1_stylesheet_gate (FS.mk false true ["ds-report.html"])).1 rfl,
   (c1_stylesheet_gate (FS.mk true true [])).2 rfl⟩

/-- C2: rendering is deterministic and pure — equal pages render to equal
strings, the shell is a function of its arguments, and the file writes of
a successful run are identical for every file-system state satisfying the
precondition (rendering never consults the file system). -/
theorem c2_render_pure (fs fs' : FS) (p q : Page) (t c pre pre' : String) :
    (p = q → render_page p = render_page q)
    ∧ (pre = pre' → html_page t c pre = html_page t c pre')
    ∧ (fs.cssExists = true → fs'.cssExists = true →
        (effectsOf fs).filter Effect.isWrite = (effectsOf fs').filter Effect.isWrite) := by
  refine ⟨fun h => h ▸ rfl, fun h => h ▸ rfl, fun h h' => ?_⟩
  rw [effectsOf_eq fs h, effectsOf_eq fs' h']
  simp [Effect.isWrite, List.filter_append, legacy_filter_isWrite, filter_isWrite_map_write]

/-- Witness for C2: a concrete page, shell call, and two distinct
concrete file systems with the same write set. -/
theorem c2_render_pure_witness :
    render_page theoryPage_vision = render_page theoryPage_vision
    ∧ html_page "Theory" "x" "../" = html_page "Theory" "x" "../"
    ∧ (effectsOf (FS.mk true true ["ds-report.html"])).filter Effect.isWrite
        = (effectsOf (FS.mk true false [])).filter Effect.isWrite :=
  ⟨(c2_render_pure (FS.mk true true ["ds-report.html"]) (FS.mk true false [])
      theoryPage_vision theoryPage_vision "Theory" "x" "../" "../").1 rfl,
   (c2_render_pure (FS.mk true true ["ds-report.html"]) (FS.mk true false [])
      theoryPage_vision theoryPage_vision "Theory" "x" "../" "../").2.1 rfl,
   (c2_render_pure (FS.mk true true ["ds-report.html"]) (FS.mk true false [])
      theoryPage_vision theoryPage_vision "Theory" "x" "../" "../").2.2 rfl rfl⟩

/-- Counterexample to C3: for the vertical connector from (0,0) to
(0,100) the produced arrowhead vertices are (-10,93), (-10,107), (10,100):
the claimed tip (0,100) is not a vertex, and neither are the base points
(-7,90), (7,90) that a tip-at-(x2,y2) head perpendicular to this line
would have. -/
theorem c3_arrowhead_counterexample :
    svg_arrow 0 0 0 100 "url(#deep)"
      = "<line x1=\"0\" y1=\"0\" x2=\"0\" y2=\"100\" stroke=\"url(#deep)\" stroke-width=\"4\" stroke-linecap=\"round\"/>\n<polygon points=\"-10,93 -10,107 10,100\" fill=\"#16b879\"/>"
    ∧ arrowPolygonPoints 0 100 = [(-10, 93), (-10, 107), (10, 100)]
    ∧ ((0 : Int), (100 : Int)) ∉ arrowPolygonPoints 0 100
    ∧ ((-7 : Int), (90 : Int)) ∉ arrowPolygonPoints 0 100
    ∧ ((7 : Int), (90 : Int)) ∉ arrowPolygonPoints 0 100 :=
  ⟨rfl, rfl, by decide, by decide, by decide⟩

/-- C3 amended: the fragment is the straight line from (x1,y1) to
(x2,y2) plus a triangle with the fixed axis-aligned vertices
(x2-10,y2-7), (x2-10,y2+7), (x2+10,y2) — a head pointing in the +x
direction whose tip is (x2+10,y2), the same offsets for every line length
and angle. -/
theorem c3_arrow_fragment (x1 y1 x2 y2 : Int) (color : String) :
    svg_arrow x1 y1 x2 y2 color
      = "<line x1=\"" ++ toString x1 ++ "\" y1=\"" ++ toString y1
        ++ "\" x2=\"" ++ toString x2 ++ "\" y2=\"" ++ toString y2
        ++ "\" stroke=\"" ++ color
        ++ "\" stroke-width=\"4\" stroke-linecap=\"round\"/>\n<polygon points=\""
        ++ pointsAttr (arrowPolygonPoints x2 y2) ++ "\" fill=\"#16b879\"/>"
    ∧ arrowPolygonPoints x2 y2 = [(x2 - 10, y2 - 7), (x2 - 10, y2 + 7), (x2 + 10, y2)]
    ∧ (x2 + 10, y2) ∈ arrowPolygonPoints x2 y2
    ∧ pointsAttr (arrowPolygonPoints x2 y2)
        = toString (x2 - 10) ++ "," ++ toString (y2 - 7) ++ " "
          ++ toString (x2 - 10) ++ "," ++ toString (y2 + 7) ++ " "
          ++ toString (x2 + 10) ++ "," ++ toString y2 := by
  refine ⟨rfl, rfl, by simp [arrowPolygonPoints], ?_⟩
  show String.intercalate " "
      [toString (x2 - 10) ++ "," ++ toString (y2 - 7),
       toString (x2 - 10) ++ "," ++ toString (y2 + 7),
       toString (x2 + 10) ++ "," ++ toString y2] = _
  rw [intercalate_cons_cons, intercalate_cons_cons, intercalate_singleton]
  simp only [String.append_assoc]

/-- Counterexample to C4: on a successful run the write of the theory
page `vision.html` (trace position 3) happens before the write of the
wiki index document (trace position 17), so a page file is written before
both index documents have been written. -/
theorem c4_order_counterexample :
    (effectsOf (FS.mk true true [])).get? 3
      = some (Effect.write "docs/theory/vision.html" (render_page theoryPage_vision))
    ∧ (effectsOf (FS.mk true true [])).get? 17
      = some (Effect.write "docs/wiki/index.html" wikiIndexHtml)
    ∧ (3 : Nat) < 17 :=
  ⟨rfl, rfl, by decide⟩

/-- C4 amended: the side-effecting steps run in the fixed order
precondition check, directory preparation, legacy cleanup (which contains
no write), then per kind — theory first — its index write followed by its
page writes in registry order; each kind's pages follow that kind's own
index, but the theory pages precede the wiki index. -/
theorem c4_build_order (fs : FS) (h : fs.cssExists = true) :
    mainEffects fs = Except.ok
      ([Effect.mkdirP "docs/theory", Effect.mkdirP "docs/wiki"]
        ++ remove_legacy_theory_pages fs
        ++ [Effect.write "docs/theory/index.html" theoryIndexHtml]
        ++ build_theory_pages.map
            (fun p => Effect.write ("docs/theory/" ++ p.slug ++ ".html") (render_page p))
        ++ [Effect.write "docs/wiki/index.html" wikiIndexHtml]
        ++ build_wiki_pages.map
            (fun p => Effect.write ("docs/wiki/" ++ p.slug ++ ".html") (render_page p)))
    ∧ (∀ e ∈ remove_legacy_theory_pages fs, e.isWrite = false) := by
  constructor
  · simp [mainEffects, h]
  · intro e he
    unfold remove_legacy_theory_pages at he
    by_cases hd : fs.theoryDirExists
    · simp only [hd, if_true] at he
      rcases List.mem_map.1 he with ⟨n, _, rfl⟩
      rfl
    · simp [hd] at he

/-- Witness for C4's amended theorem at a concrete file system. -/
theorem c4_build_order_witness :
    mainEffects (FS.mk true false []) = Except.ok
      ([Effect.mkdirP "docs/theory", Effect.mkdirP "docs/wiki"]
        ++ remove_legacy_theory_pages (FS.mk true false [])
        ++ [Effect.write "docs/theory/index.html" theoryIndexHtml]
        ++ build_theory_pages.map
            (fun p => Effect.write ("docs/theory/" ++ p.slug ++ ".html") (render_page p))
        ++ [Effect.write "docs/wiki/index.html" wikiIndexHtml]
        ++ build_wiki_pages.map
            (fun p => Effect.write ("docs/wiki/" ++ p.slug ++ ".html") (render_page p)))
    ∧ (∀ e ∈ remove_legacy_theory_pages (FS.mk true false []), e.isWrite = false) :=
  c4_build_order (FS.mk true false []) rfl

/-- C5: every registered page of either kind is written, with content
`render_page p`, to the file named exactly `slug ++ ".html"` inside its
kind's directory, and the rendered document's content block begins — right
after the fixed shell head, which contains no heading element — with the
`<h1>` heading holding exactly the page's title. -/
theorem c5_page_files (fs : FS) (p : Page) (h : fs.cssExists = true) :
    (p ∈ build_theory_pages →
      Effect.write ("docs/theory/" ++ (p.slug ++ ".html")) (render_page p) ∈ effectsOf fs)
    ∧ (p ∈ build_wiki_pages →
      Effect.write ("docs/wiki/" ++ (p.slug ++ ".html")) (render_page p) ∈ effectsOf fs)
    ∧ ∃ rest, render_page p
        = htmlShellHead p.title (if p.kind = "theory" ∨ p.kind = "wiki" then "../" else "")
          ++ ("<h1>" ++ p.title ++ "</h1>" ++ ("\n" ++ rest)) ++ htmlShellTail := by
  refine ⟨fun hp => ?_, fun hp => ?_,
    ⟨(if p.kind = "theory" then introTheory else introWiki) ++ "\n"
      ++ (if p.kind = "theory" then related_wiki_paragraph "../wiki/"
          else related_wiki_paragraph "") ++ "\n"
      ++ h2_sections p.sections ++ "\n"
      ++ "<figure class=\"diagram\">" ++ "\n"
      ++ p.svg ++ "\n"
      ++ "<figcaption>" ++ p.caption ++ "</figcaption>" ++ "\n"
      ++ "</figure>" ++ "\n"
      ++ references_paragraph p.references, ?_⟩⟩
  · rw [← String.append_assoc]
    exact write_mem_effects_theory fs h hp
  · rw [← String.append_assoc]
    exact write_mem_effects_wiki fs h hp
  · rw [render_page_unfold]
    simp only [html_page]
    simp only [String.append_assoc]

/-- Witness for C5: the first theory page is written at
`docs/theory/vision.html` by a concrete successful run. -/
theorem c5_page_files_witness :
    Effect.write ("docs/theory/" ++ (theoryPage_vision.slug ++ ".html"))
        (render_page theoryPage_vision) ∈ effectsOf (FS.mk true true []) :=
  (c5_page_files (FS.mk true true []) theoryPage_vision rfl).1 (List.Mem.head _)

/-- C6: the rendered body is the newline-separated concatenation, in
order, of the title heading, the kind-selected intro, the kind-selected
related-pages paragraph, the sections as `<h2>`+`<p>` pairs in input
order, the figure wrapping the diagram with the caption, and the closing
references paragraph with every reference as an inline link in input
order. -/
theorem c6_body_order (p : Page) :
    render_page p = html_page p.title
      ("<h1>" ++ p.title ++ "</h1>" ++ "\n"
        ++ (if p.kind = "theory" then introTheory else introWiki) ++ "\n"
        ++ (if p.kind = "theory" then related_wiki_paragraph "../wiki/"
            else related_wiki_paragraph "") ++ "\n"
        ++ h2_sections p.sections ++ "\n"
        ++ "<figure class=\"diagram\">" ++ "\n"
        ++ p.svg ++ "\n"
        ++ "<figcaption>" ++ p.caption ++ "</figcaption>" ++ "\n"
        ++ "</figure>" ++ "\n"
        ++ references_paragraph p.references)
      (if p.kind = "theory" ∨ p.kind = "wiki" then "../" else "")
    ∧ h2_sections p.sections
        = String.intercalate "\n"
            (p.sections.map (fun s => "<h2>" ++ s.1 ++ "</h2>\n<p>" ++ s.2 ++ "</p>"))
    ∧ references_paragraph p.references
        = "<h2>References</h2>\n<p>"
          ++ String.intercalate " "
              (p.references.map (fun r => "<a href=\"" ++ r.2 ++ "\">" ++ r.1 ++ "</a>"))
          ++ "</p>" :=
  ⟨render_page_unfold p, rfl, rfl⟩

/-- C7: a legend built from `n` lines has box height exactly `24 + 18n`,
draws the `i`-th line at `y + 44 + 18i` with a 16-unit left inset (the
inset is fixed inside `legendLineText`), and an empty line list yields
the zero-content legend — box and caption only — rather than an error. -/
theorem c7_legend (x y : Int) (lines : List String) :
    svg_legend x y lines
      = String.intercalate "\n"
          (legendRect x y (24 + 18 * (lines.length : Int))
            :: legendTitleText x y
            :: legendTexts x (y + 44) lines)
    ∧ (legendTexts x (y + 44) lines).length = lines.length
    ∧ (∀ i : Nat, (legendTexts x (y + 44) lines)[i]?
        = (lines[i]?).map (fun line => legendLineText x (y + 44 + 18 * (i : Int)) line))
    ∧ svg_legend x y [] = legendRect x y 24 ++ "\n" ++ legendTitleText x y := by
  refine ⟨rfl, legendTexts_length x lines (y + 44),
    fun i => legendTexts_get x lines (y + 44) i, ?_⟩
  have h0 : svg_legend x y []
      = String.intercalate "\n" [legendRect x y 24, legendTitleText x y] := by
    simp [svg_legend, legendTexts]
  rw [h0, intercalate_cons_cons, intercalate_singleton]

/-- C8: legacy cleanup touches only the theory directory — with a missing
directory or no matching file it deletes nothing and is not an error,
every effect it emits is the deletion of a theory-directory file whose
name matches `ds*.html`, every matching file is deleted, and a file whose
name does not match is never deleted (in particular nothing under the
wiki directory is ever touched). -/
theorem c8_legacy_cleanup (fs : FS) :
    (fs.theoryDirExists = false → remove_legacy_theory_pages fs = [])
    ∧ (fs.theoryFiles.filter matchesLegacyPattern = [] →
        remove_legacy_theory_pages fs = [])
    ∧ (∀ e ∈ remove_legacy_theory_pages fs,
        ∃ n, n ∈ fs.theoryFiles ∧ matchesLegacyPattern n = true
          ∧ e = Effect.unlink ("docs/theory/" ++ n))
    ∧ (fs.theoryDirExists = true → ∀ n ∈ fs.theoryFiles,
        matchesLegacyPattern n = true →
        Effect.unlink ("docs/theory/" ++ n) ∈ remove_legacy_theory_pages fs)
    ∧ (∀ n, matchesLegacyPattern n = false →
        Effect.unlink ("docs/theory/" ++ n) ∉ remove_legacy_theory_pages fs) := by
  refine ⟨fun h => by simp [remove_legacy_theory_pages, h], fun h => ?_, fun e he => ?_,
    fun hd n hn hm => ?_, fun n hm hmem => ?_⟩
  · unfold remove_legacy_theory_pages
    by_cases hd : fs.theoryDirExists
    · simp [hd, h]
    · simp [hd]
  · unfold remove_legacy_theory_pages at he
    by_cases hd : fs.theoryDirExists
    · simp only [hd, if_true] at he
      rcases List.mem_map.1 he with ⟨n, hn, rfl⟩
      rcases List.mem_filter.1 hn with ⟨hmem, hmatch⟩
      exact ⟨n, hmem, hmatch, rfl⟩
    · simp [hd] at he
  · unfold remove_legacy_theory_pages
    simp only [hd, if_true]
    exact List.mem_map_of_mem _ (List.mem_filter.2 ⟨hn, hm⟩)
  · unfold remove_legacy_theory_pages at hmem
    by_cases hd : fs.theoryDirExists
    · simp only [hd, if_true] at hmem
      rcases List.mem_map.1 hmem with ⟨m, hmem', heq⟩
      rcases List.mem_filter.1 hmem' with ⟨_, hmatch⟩
      have hpath : "docs/theory/" ++ n = "docs/theory/" ++ m := by
        have := congrArg Effect.path heq
        simpa [Effect.path] using this.symm
      have : n = m := string_append_left_cancel hpath
      rw [← this] at hmatch
      rw [hm] at hmatch
      exact Bool.false_ne_true hmatch
    · simp [hd] at hmem

/-- Witness for C8 at a concrete theory directory: the matching file
`ds-report.html` is deleted, the page file `vision.html` is not, and a
missing directory yields no deletion. -/
theorem c8_legacy_cleanup_witness :
    Effect.unlink ("docs/theory/" ++ "ds-report.html")
        ∈ remove_legacy_theory_pages (FS.mk true true ["ds-report.html", "vision.html"])
    ∧ Effect.unlink ("docs/theory/" ++ "vision.html")
        ∉ remove_legacy_theory_pages (FS.mk true true ["ds-report.html", "vision.html"])
    ∧ remove_legacy_theory_pages (FS.mk true false []) = [] :=
  ⟨(c8_legacy_cleanup (FS.mk true true ["ds-report.html", "vision.html"])).2.2.2.1
      rfl "ds-report.html" (List.Mem.head _) (by decide),
   (c8_legacy_cleanup (FS.mk true true ["ds-report.html", "vision.html"])).2.2.2.2
      "vision.html" (by decide),
   (c8_legacy_cleanup (FS.mk true false [])).1 rfl⟩

/-- C9: every card the index grids emit links to `slug ++ ".html"` for a
registered page of that kind, and the same successful run writes a file
at exactly that slug's path in that kind's directory; the card grids list
the cards in registry order. -/
theorem c9_index_links (fs : FS) (h : fs.cssExists = true) (p : Page) :
    (p ∈ build_theory_pages →
      ∃ c, Effect.write ("docs/theory/" ++ (p.slug ++ ".html")) c ∈ effectsOf fs)
    ∧ (p ∈ build_wiki_pages →
      ∃ c, Effect.write ("docs/wiki/" ++ (p.slug ++ ".html")) c ∈ effectsOf fs)
    ∧ theoryCards = String.intercalate "\n" (build_theory_pages.map theoryCard)
    ∧ wikiCards = String.intercalate "\n" (build_wiki_pages.map wikiCard)
    ∧ theoryCard p
        = "<a class=\"card\" href=\"" ++ p.slug
          ++ ".html\"><div class=\"card-title\">" ++ p.title
          ++ "</div><div class=\"card-note\">Chapters, definitions, mechanisms, and references.</div></a>"
    ∧ wikiCard p
        = "<a class=\"card\" href=\"" ++ p.slug
          ++ ".html\"><div class=\"card-title\">" ++ p.title
          ++ "</div><div class=\"card-note\">Definition, role in VSAVM, mechanics, references.</div></a>" := by
  refine ⟨fun hp => ⟨render_page p, ?_⟩, fun hp => ⟨render_page p, ?_⟩, rfl, rfl, rfl, rfl⟩
  · rw [← String.append_assoc]
    exact write_mem_effects_theory fs h hp
  · rw [← String.append_assoc]
    exact write_mem_effects_wiki fs h hp

/-- Witness for C9: the first card slug of each index is also written by
a concrete successful run. -/
theorem c9_index_links_witness :
    (∃ c, Effect.write ("docs/theory/" ++ (theoryPage_vision.slug ++ ".html")) c
        ∈ effectsOf (FS.mk true true []))
    ∧ (∃ c, Effect.write ("docs/wiki/" ++ (wikiPage_vm.slug ++ ".html")) c
        ∈ effectsOf (FS.mk true true [])) :=
  ⟨(c9_index_links (FS.mk true true []) rfl theoryPage_vision).1 (List.Mem.head _),
   (c9_index_links (FS.mk true true []) rfl wikiPage_vm).2.1 (List.Mem.head _)⟩

/-- C10: each of the five slugs targeted by the fixed related-pages
paragraph (vm, event-stream, vsa, bounded-closure, consistency-contract)
names a registered wiki page, and a successful run writes
`docs/wiki/{slug}.html` for each of them; the paragraph's concrete link
targets under the two prefixes the renderer uses are exhibited. -/
theorem c10_related_links (fs : FS) (h : fs.cssExists = true) :
    (∀ s ∈ relatedWikiSlugs, ∃ p, p ∈ build_wiki_pages ∧ p.slug = s)
    ∧ (∀ s ∈ relatedWikiSlugs,
        ∃ c, Effect.write ("docs/wiki/" ++ (s ++ ".html")) c ∈ effectsOf fs) := by
  have hmem : ∀ s ∈ relatedWikiSlugs, ∃ p, p ∈ build_wiki_pages ∧ p.slug = s := by
    intro s hs
    simp only [relatedWikiSlugs, List.mem_cons, List.not_mem_nil, or_false] at hs
    rcases hs with rfl | rfl | rfl | rfl | rfl
    · exact ⟨wikiPage_vm, List.Mem.head _, rfl⟩
    · exact ⟨wikiPage_event_stream, by simp [build_wiki_pages], rfl⟩
    · exact ⟨wikiPage_vsa, by simp [build_wiki_pages], rfl⟩
    · exact ⟨wikiPage_bounded_closure, by simp [build_wiki_pages], rfl⟩
    · exact ⟨wikiPage_consistency_contract, by simp [build_wiki_pages], rfl⟩
  refine ⟨hmem, fun s hs => ?_⟩
  rcases hmem s hs with ⟨p, hp, hslug⟩
  refine ⟨render_page p, ?_⟩
  rw [← hslug, ← String.append_assoc]
  exact write_mem_effects_wiki fs h hp

/-- Witness for C10 at a concrete successful run. -/
theorem c10_related_links_witness :
    (∀ s ∈ relatedWikiSlugs, ∃ p, p ∈ build_wiki_pages ∧ p.slug = s)
    ∧ (∀ s ∈ relatedWikiSlugs,
        ∃ c, Effect.write ("docs/wiki/" ++ (s ++ ".html")) c
          ∈ effectsOf (FS.mk true true [])) :=
  c10_related_links (FS.mk true true []) rfl

end SitePages
